import Mathlib

/-
  Shallow embedding of Source/Core/Core/WiiUtils.cpp (Dolphin, 2017):
  WAD installation, the online system updater (NUS), catalog-response
  parsing and TMD download splitting.

  The ES / IOS secure-storage layer, the HTTP layer, pugixml and the WAD
  container decoder are collaborators that are not part of the translated
  file; they are modelled as environments of pure functions (deterministic
  oracles).  Every ES import call performed by the embedded code is
  recorded in an event trace so that protocol properties (commit/cancel
  pairing, retry bounds, ordering) can be stated about the calls actually
  made.
-/

namespace WiiUtils

/-- Result enum of the update planner (Core/WiiUtils.h). -/
inductive UpdateResult where
  | Succeeded
  | AlreadyUpToDate
  | Cancelled
  | ServerFailed
  | DownloadFailed
  | ImportFailed
deriving DecidableEq

/-- Planner-internal title descriptor: {title id, requested version}. -/
structure TitleInfo where
  id : Nat
  version : Nat
deriving DecidableEq

/-- One content entry of a TMD (IOS::ES::Content, fields used by WiiUtils.cpp). -/
structure Content where
  id : Nat
  index : Nat
deriving DecidableEq

/-- View over a decoded TMD (IOS::ES::TMDReader accessors used by WiiUtils.cpp).
`numContents` is the header-declared content count (GetNumContents);
`contents` the decoded content table (GetContents). -/
structure TMD where
  valid : Bool
  titleId : Nat
  titleVersion : Nat
  numContents : Nat
  iosId : Nat
  contents : List Content
deriving DecidableEq

/-- Modelled from the spec: the IOS check-value failure code returned on a
signature verification failure.  Its exact numeric value is defined in IOS
headers outside the translated file; only its identity matters here. -/
def IOSC_FAIL_CHECKVALUE : Int := -1017

/-- Modelled from the spec: the boot2 title id (Titles::BOOT2, CommonTitles.h,
outside the translated file); the planner skips it unconditionally. -/
def BOOT2 : Nat := 0x100000001

/-- ES import calls made by the install paths, with the return code the
collaborator produced for each call. -/
inductive ESEvent where
  | importTicket (title : Nat) (ret : Int)
  | importTitleInit (title : Nat) (ret : Int)
  | importContentBegin (title : Nat) (cid : Nat) (ret : Int)
  | importContentData (cid : Nat) (ret : Int)
  | importContentEnd (cid : Nat) (ret : Int)
  | importTitleDone (title : Nat) (ret : Int)
  | importTitleCancel (title : Nat) (ret : Int)
deriving DecidableEq

/-- Collaborator environment for the online updater: HTTP downloads
(success abstracted to a Bool / a TMD), the ES query API, and the return
codes the ES import API yields for each call. -/
structure NusEnv where
  downloadTicket : TitleInfo → Bool
  importTicketRet : TitleInfo → Int
  downloadTMD : TitleInfo → TMD
  isSystemTitle : Nat → Bool
  installedTMD : Nat → TMD
  contentStored : Nat → Nat → Bool
  downloadContent : TitleInfo → Nat → Bool
  importContentBeginRet : Nat → Nat → Int
  importContentDataRet : Nat → Int
  importContentEndRet : Nat → Int
  importTitleInitRet : TitleInfo → Int
  importTitleDoneRet : Nat → Int
  importTitleCancelRet : Nat → Int

/-- es->GetStoredContentsFromTMD(tmd): the content entries of `tmd` that are
present in secure storage for that title (ES side modelled as the
`contentStored` predicate of the environment). -/
def GetStoredContentsFromTMD (env : NusEnv) (tmd : TMD) : List Content :=
  tmd.contents.filter (fun c => env.contentStored tmd.titleId c.id)

/-- SystemUpdater::ShouldInstallTitle (WiiUtils.cpp:147-153). -/
def ShouldInstallTitle (env : NusEnv) (title : TitleInfo) : Bool :=
  let itmd := env.installedTMD title.id
  !(itmd.valid && decide (title.version ≤ itmd.titleVersion) &&
    ((GetStoredContentsFromTMD env itmd).length == itmd.numContents))

/-- The content loop of OnlineSystemUpdater::InstallTitleFromNUS
(WiiUtils.cpp:389-422): already-stored entries are skipped, others get
begin / download / data / end, aborting on the first failure. -/
def NusContents (env : NusEnv) (title : TitleInfo) (stored : List Content) :
    List Content → UpdateResult × List ESEvent
  | [] => (.Succeeded, [])
  | c :: rest =>
    if stored.any (fun sc => sc.id == c.id) then NusContents env title stored rest
    else
      let rb := env.importContentBeginRet title.id c.id
      if rb < 0 then (.ImportFailed, [.importContentBegin title.id c.id rb])
      else if env.downloadContent title c.id = false then
        (.DownloadFailed, [.importContentBegin title.id c.id rb])
      else
        let rd := env.importContentDataRet c.id
        if rd < 0 then
          (.ImportFailed, [.importContentBegin title.id c.id rb, .importContentData c.id rd])
        else
          let rE := env.importContentEndRet c.id
          if rE < 0 then
            (.ImportFailed, [.importContentBegin title.id c.id rb, .importContentData c.id rd,
                             .importContentEnd c.id rE])
          else
            let k := NusContents env title stored rest
            (k.1, .importContentBegin title.id c.id rb :: .importContentData c.id rd ::
                  .importContentEnd c.id rE :: k.2)

/-- The per-title transaction of InstallTitleFromNUS after prerequisite
resolution (WiiUtils.cpp:379-436): title-init, content loop, finalize
(commit on success, cancel on failure). -/
def InstallCore (env : NusEnv) (title : TitleInfo) (tmd : TMD) :
    UpdateResult × List ESEvent :=
  let ri := env.importTitleInitRet title
  if ri < 0 then (.ImportFailed, [.importTitleInit title.id ri])
  else
    let body := NusContents env title (GetStoredContentsFromTMD env tmd) tmd.contents
    if body.1 = .Succeeded then
      let rD := env.importTitleDoneRet title.id
      (if rD < 0 then .ImportFailed else .Succeeded,
       .importTitleInit title.id ri :: body.2 ++ [.importTitleDone title.id rD])
    else
      let rC := env.importTitleCancelRet title.id
      (if rC < 0 then .ImportFailed else body.1,
       .importTitleInit title.id ri :: body.2 ++ [.importTitleCancel title.id rC])

/-- One level of OnlineSystemUpdater::InstallTitleFromNUS
(WiiUtils.cpp:325-437).  `oracle` is the recursive call used for the
required-system-title install; `none` means the recursion depth bound is
exhausted (the C++ recursion is unbounded, so a dependency cycle in server
data would never return; the bound maps that to ImportFailed). -/
def InstallStep (env : NusEnv)
    (oracle : Option (TitleInfo → List Nat → UpdateResult × List Nat × List ESEvent))
    (title : TitleInfo) (updated : List Nat) :
    UpdateResult × List Nat × List ESEvent :=
  if title.id = BOOT2 then (.Succeeded, updated, [])
  else if ShouldInstallTitle env title = false then (.Succeeded, updated, [])
  else if updated.contains title.id then (.Succeeded, updated, [])
  else if env.downloadTicket title = false then (.DownloadFailed, updated, [])
  else
    let rt := env.importTicketRet title
    if rt < 0 then (.ImportFailed, updated, [.importTicket title.id rt])
    else
      let tmd := env.downloadTMD title
      if tmd.valid = false then (.DownloadFailed, updated, [.importTicket title.id rt])
      else if tmd.iosId ≠ 0 ∧ env.isSystemTitle tmd.iosId
              ∧ (env.installedTMD tmd.iosId).valid = false then
        match oracle with
        | none => (.ImportFailed, updated, [.importTicket title.id rt])
        | some recurse =>
          let sub := recurse ⟨tmd.iosId, 0⟩ updated
          if sub.1 = .Succeeded then
            let core := InstallCore env title tmd
            (if core.1 = .Succeeded then .Succeeded else core.1,
             if core.1 = .Succeeded then title.id :: sub.2.1 else sub.2.1,
             .importTicket title.id rt :: sub.2.2 ++ core.2)
          else (sub.1, sub.2.1, .importTicket title.id rt :: sub.2.2)
      else
        let core := InstallCore env title tmd
        (if core.1 = .Succeeded then .Succeeded else core.1,
         if core.1 = .Succeeded then title.id :: updated else updated,
         .importTicket title.id rt :: core.2)

/-- OnlineSystemUpdater::InstallTitleFromNUS with an explicit recursion
depth bound `fuel` (the C++ recursion on the required system title is
unbounded). -/
def InstallTitleFromNUS (env : NusEnv) :
    Nat → TitleInfo → List Nat → UpdateResult × List Nat × List ESEvent
  | 0, title, updated => InstallStep env none title updated
  | fuel + 1, title, updated =>
    InstallStep env (some (fun t u => InstallTitleFromNUS env fuel t u)) title updated

/-- Decoded catalog response: content base URL and ordered title list
(OnlineSystemUpdater::Response). -/
structure Response where
  contentPrefixURL : List Char
  titles : List TitleInfo
deriving DecidableEq

/-- The per-title loop of OnlineSystemUpdater::DoOnlineUpdate
(WiiUtils.cpp:299-314).  Returns `none` if the loop ran to completion, or
`some r` on an early return, together with the updated-title set, the ES
event trace and the list of progress-callback invocations
(index, total, title id, returned value). -/
def ProcessTitles (env : NusEnv) (cb : Nat → Nat → Nat → Bool) (fuel total : Nat) :
    List TitleInfo → Nat → List Nat →
    Option UpdateResult × List Nat × List ESEvent × List (Nat × Nat × Nat × Bool)
  | [], _, updated => (none, updated, [], [])
  | t :: rest, processed, updated =>
    if cb processed total t.id then
      let step := InstallTitleFromNUS env fuel t updated
      if step.1 = .Succeeded then
        let k := ProcessTitles env cb fuel total rest (processed + 1) step.2.1
        (k.1, k.2.1, step.2.2 ++ k.2.2.1,
         (processed, total, t.id, true)
           :: (processed + 1, total, t.id, cb (processed + 1) total t.id) :: k.2.2.2)
      else (some step.1, step.2.1, step.2.2, [(processed, total, t.id, true)])
    else (some .Cancelled, updated, [], [(processed, total, t.id, false)])

/-- OnlineSystemUpdater::DoOnlineUpdate (WiiUtils.cpp:290-323), taking the
already-decoded catalog response. -/
def DoOnlineUpdate (env : NusEnv) (cb : Nat → Nat → Nat → Bool) (fuel : Nat)
    (info : Response) : UpdateResult × List Nat :=
  if info.titles = [] then (.ServerFailed, [])
  else
    let k := ProcessTitles env cb fuel info.titles.length info.titles 0 []
    match k.1 with
    | some r => (r, k.2.1)
    | none => (if k.2.1 = [] then .AlreadyUpToDate else .Succeeded, k.2.1)

/-- The WAD container as seen by InstallWAD: validity and the decoded TMD
(ticket / cert bytes are opaque to the control flow). -/
structure WiiWAD where
  valid : Bool
  tmd : TMD

/-- Collaborator environment for InstallWAD.  `importTicketRet` and
`importTitleInitRet` depend on the current value of the ambient
signature-check flag; `checksEnabled` is the flag's value at entry
(SConfig::m_enable_signature_checks).  `contentStored` is the NAND state,
recorded here to express that InstallWAD never consults it. -/
structure WadEnv where
  wad : WiiWAD
  checksEnabled : Bool
  importTicketRet : Bool → Int
  importTitleInitRet : Bool → Int
  askYesNo : Bool
  importContentBeginRet : Nat → Nat → Int
  importContentDataRet : Nat → Int
  importContentEndRet : Nat → Int
  importTitleDoneRet : Int
  importTitleCancelRet : Int
  contentStored : Nat → Nat → Bool

/-- One attempt of the ImportTicket / ImportTitleInit pair in InstallWAD's
while-condition (WiiUtils.cpp:57-58); `.1` is the final `ret`. -/
def WadAttempt (env : WadEnv) (flag : Bool) : Int × List ESEvent :=
  let r1 := env.importTicketRet flag
  if r1 < 0 then (r1, [.importTicket env.wad.tmd.titleId r1])
  else
    let r2 := env.importTitleInitRet flag
    (r2, [.importTicket env.wad.tmd.titleId r1, .importTitleInit env.wad.tmd.titleId r2])

/-- The retry loop of InstallWAD (WiiUtils.cpp:56-71), with a fuel bound on
the number of iterations (the C++ loop re-enters whenever the interactive
downgrade is taken).  Returns (loop succeeded, final flag value, events). -/
def WadTicketInitLoop (env : WadEnv) : Nat → Bool → Bool × Bool × List ESEvent
  | 0, flag => (false, flag, [])
  | fuel + 1, flag =>
    let a := WadAttempt env flag
    if a.1 < 0 then
      if env.checksEnabled = true ∧ a.1 = IOSC_FAIL_CHECKVALUE ∧ env.askYesNo = true then
        let k := WadTicketInitLoop env fuel false
        (k.1, k.2.1, a.2 ++ k.2.2)
      else (false, env.checksEnabled, a.2)
    else (true, env.checksEnabled, a.2)

/-- The content loop of InstallWAD (WiiUtils.cpp:73-88): every entry is
run through begin / data / end in list order, aborting on the first
failure; stored contents are not consulted. -/
def WadContents (env : WadEnv) : List Content → Bool × List ESEvent
  | [] => (true, [])
  | c :: rest =>
    let tid := env.wad.tmd.titleId
    let rb := env.importContentBeginRet tid c.id
    if rb < 0 then (false, [.importContentBegin tid c.id rb])
    else
      let rd := env.importContentDataRet c.id
      if rd < 0 then (false, [.importContentBegin tid c.id rb, .importContentData c.id rd])
      else
        let rE := env.importContentEndRet c.id
        if rE < 0 then
          (false, [.importContentBegin tid c.id rb, .importContentData c.id rd,
                   .importContentEnd c.id rE])
        else
          let k := WadContents env rest
          (k.1, .importContentBegin tid c.id rb :: .importContentData c.id rd ::
                .importContentEnd c.id rE :: k.2)

/-- WiiUtils::InstallWAD (WiiUtils.cpp:41-99).  Returns
(overall result, final signature-check flag, event trace).  Note that the
translated source returns true when the content phase failed but
ImportTitleCancel itself succeeded (lines 90-98 fall through to line 98). -/
def InstallWAD (env : WadEnv) (fuel : Nat) : Bool × Bool × List ESEvent :=
  if env.wad.valid = false then (false, env.checksEnabled, [])
  else
    let lp := WadTicketInitLoop env fuel env.checksEnabled
    if lp.1 = false then (false, lp.2.1, lp.2.2)
    else
      let cs := WadContents env env.wad.tmd.contents
      let tid := env.wad.tmd.titleId
      if cs.1 then
        let rD := env.importTitleDoneRet
        (if rD < 0 then false else true, lp.2.1, lp.2.2 ++ cs.2 ++ [.importTitleDone tid rD])
      else
        let rC := env.importTitleCancelRet
        (if rC < 0 then false else true, lp.2.1, lp.2.2 ++ cs.2 ++ [.importTitleCancel tid rC])

/-- Abstraction of the pugixml view of the catalog response used by
ParseTitlesResponse: whether the buffer parsed, whether the
GetSystemUpdateResponse node was found, the ErrorCode, the ContentPrefixURL
text, and the (TitleId text, Version as-uint value) pairs in document
order. -/
structure TitlesXML where
  parsedOk : Bool
  rootPresent : Bool
  errorCode : Int
  contentPrefixURL : List Char
  titleVersions : List (List Char × Nat)
deriving DecidableEq

/-- Modelled from the spec: Common::ReplaceAll (StringUtil, outside the
translated file) applied to the pattern pair used at WiiUtils.cpp:223 —
every occurrence of "https://" is replaced by "http://", scanning left to
right. -/
def ReplaceAllHttps : List Char → List Char
  | 'h' :: 't' :: 't' :: 'p' :: 's' :: ':' :: '/' :: '/' :: rest =>
      'h' :: 't' :: 't' :: 'p' :: ':' :: '/' :: '/' :: ReplaceAllHttps rest
  | c :: rest => c :: ReplaceAllHttps rest
  | [] => []

/-- Value of one hexadecimal digit, if any. -/
def hexDigitVal (c : Char) : Option Nat :=
  if '0' ≤ c ∧ c ≤ '9' then some (c.toNat - '0'.toNat)
  else if 'a' ≤ c ∧ c ≤ 'f' then some (c.toNat - 'a'.toNat + 10)
  else if 'A' ≤ c ∧ c ≤ 'F' then some (c.toNat - 'A'.toNat + 10)
  else none

/-- Modelled from the spec: base-16 digit parsing of the TitleId text as
done by std::stoull(·, nullptr, 16) on a plain hex-digit string
(WiiUtils.cpp:232). -/
def hexParseGo (acc : Nat) : List Char → Nat
  | [] => acc
  | c :: rest =>
    match hexDigitVal c with
    | some d => hexParseGo (acc * 16 + d) rest
    | none => acc

def hexParse (s : List Char) : Nat := hexParseGo 0 s

/-- OnlineSystemUpdater::ParseTitlesResponse (WiiUtils.cpp:192-237) over the
abstracted pugixml view.  An empty Response models the `return {}` paths. -/
def ParseTitlesResponse (x : TitlesXML) : Response :=
  if x.parsedOk = false then ⟨[], []⟩
  else if x.rootPresent = false then ⟨[], []⟩
  else if x.errorCode ≠ 0 then ⟨[], []⟩
  else
    let url := ReplaceAllHttps x.contentPrefixURL
    if url = [] then ⟨[], []⟩
    else ⟨url, x.titleVersions.map (fun tv => ⟨hexParse tv.1, tv.2 % 65536⟩)⟩

/-- Big-endian 16-bit read at offset `i`, `none` when out of bounds
(Common::swap16 over the response buffer, WiiUtils.cpp:456). -/
def swap16At (buf : List Nat) (i : Nat) : Option Nat :=
  match buf.get? i, buf.get? (i + 1) with
  | some hi, some lo => some (hi * 256 + lo)
  | _, _ => none

/-- Outcome of splitting the downloaded buffer into TMD and cert chain.
`oobRead` marks a read outside the buffer (shown unreachable). -/
inductive TMDDownloadOutcome where
  | invalid
  | oobRead
  | ok (tmdBytes certBytes : List Nat)
deriving DecidableEq

/-- OnlineSystemUpdater::DownloadTMD (WiiUtils.cpp:439-465): the size
validation and split of the HTTP response into TMD bytes and certificate
bytes.  `headerSize`, `entrySize` and `countOff` stand for
sizeof(IOS::ES::TMDHeader), sizeof(IOS::ES::Content) and
offsetof(IOS::ES::TMDHeader, num_contents) (defined outside the translated
file); `none` is an HTTP failure. -/
def DownloadTMD (headerSize entrySize countOff : Nat) :
    Option (List Nat) → TMDDownloadOutcome
  | none => .invalid
  | some buf =>
    if buf.length ≤ headerSize then .invalid
    else
      match swap16At buf countOff with
      | none => .oobRead
      | some declared =>
        let tmdSize := headerSize + entrySize * declared
        if buf.length ≤ tmdSize then .invalid
        else .ok (buf.take tmdSize) (buf.drop tmdSize)

/-- Modelled from the spec: the ticket store of secure storage.  A
successful ImportTicket adds the title's ticket; rollback on failure
applies only to the title-import context, so no other import call touches
the ticket store. -/
def applyTicketEvent (tickets : List Nat) : ESEvent → List Nat
  | .importTicket t r => if 0 ≤ r then t :: tickets else tickets
  | _ => tickets

/-- Ticket store after running a trace of ES events. -/
def ticketsAfter (tickets : List Nat) : List ESEvent → List Nat
  | [] => tickets
  | e :: rest => ticketsAfter (applyTicketEvent tickets e) rest

/-- Number of events of a trace satisfying `p`. -/
def CountEvents (p : ESEvent → Bool) (l : List ESEvent) : Nat := (l.filter p).length

def IsDoneEvt : ESEvent → Bool
  | .importTitleDone _ _ => true
  | _ => false

def IsCancelEvt : ESEvent → Bool
  | .importTitleCancel _ _ => true
  | _ => false

def IsDoneOrCancelEvt : ESEvent → Bool
  | .importTitleDone _ _ => true
  | .importTitleCancel _ _ => true
  | _ => false

/-- A title-init call that succeeded, i.e. a title-import context opened. -/
def IsInitOkEvt : ESEvent → Bool
  | .importTitleInit _ r => decide (0 ≤ r)
  | _ => false

def IsTicketEvt : ESEvent → Bool
  | .importTicket _ _ => true
  | _ => false

def IsInitEvt : ESEvent → Bool
  | .importTitleInit _ _ => true
  | _ => false

def IsContentEvt : ESEvent → Bool
  | .importContentBegin _ _ _ => true
  | .importContentData _ _ => true
  | .importContentEnd _ _ => true
  | _ => false

/-- The title id an event is tagged with, when it carries one. -/
def eventTitle : ESEvent → Option Nat
  | .importTicket t _ => some t
  | .importTitleInit t _ => some t
  | .importContentBegin t _ _ => some t
  | .importTitleDone t _ => some t
  | .importTitleCancel t _ => some t
  | _ => none

/-- Content ids of the importContentBegin events of a trace, in order. -/
def BeginIds : List ESEvent → List Nat
  | [] => []
  | .importContentBegin _ cid _ :: rest => cid :: BeginIds rest
  | _ :: rest => BeginIds rest

/-- Collaborator assumption for the signature-retry bound: with signature
checks disabled, the ES collaborator does not fail with the check-value
(signature verification) error.  This is the meaning of the ambient
signature-check policy flag; without it the C++ retry loop would re-enter
for as long as the user keeps confirming. -/
def NoDisabledCheckFailure (env : WadEnv) : Prop :=
  env.importTicketRet false ≠ IOSC_FAIL_CHECKVALUE
    ∧ env.importTitleInitRet false ≠ IOSC_FAIL_CHECKVALUE

instance (env : WadEnv) : Decidable (NoDisabledCheckFailure env) := by
  unfold NoDisabledCheckFailure; infer_instance

/-- A TMD used by the concrete witness runs. -/
def sampleTMD : TMD :=
  { valid := true, titleId := 7, titleVersion := 3, numContents := 1, iosId := 0,
    contents := [⟨11, 0⟩] }

/-- An invalid TMD (FindInstalledTMD miss). -/
def invalidTMD : TMD :=
  { valid := false, titleId := 0, titleVersion := 0, numContents := 0, iosId := 0,
    contents := [] }

/-- A NUS environment in which every download and import succeeds and
nothing is installed yet. -/
def sampleNusEnv : NusEnv :=
  { downloadTicket := fun _ => true
    importTicketRet := fun _ => 0
    downloadTMD := fun _ => sampleTMD
    isSystemTitle := fun _ => false
    installedTMD := fun _ => invalidTMD
    contentStored := fun _ _ => false
    downloadContent := fun _ _ => true
    importContentBeginRet := fun _ _ => 0
    importContentDataRet := fun _ => 0
    importContentEndRet := fun _ => 0
    importTitleInitRet := fun _ => 0
    importTitleDoneRet := fun _ => 0
    importTitleCancelRet := fun _ => 0 }

/-- A WAD environment in which the first ticket import fails signature
verification and the user confirms the downgrade; with checks disabled
everything succeeds. -/
def sampleWadEnvRetry : WadEnv :=
  { wad := { valid := true, tmd := sampleTMD }
    checksEnabled := true
    importTicketRet := fun flag => if flag then IOSC_FAIL_CHECKVALUE else 0
    importTitleInitRet := fun _ => 0
    askYesNo := true
    importContentBeginRet := fun _ _ => 0
    importContentDataRet := fun _ => 0
    importContentEndRet := fun _ => 0
    importTitleDoneRet := 0
    importTitleCancelRet := 0
    contentStored := fun _ _ => false }

/-- A WAD environment in which everything succeeds but the single content
entry is already present in secure storage. -/
def sampleWadEnvStored : WadEnv :=
  { wad := { valid := true, tmd := sampleTMD }
    checksEnabled := true
    importTicketRet := fun _ => 0
    importTitleInitRet := fun _ => 0
    askYesNo := false
    importContentBeginRet := fun _ _ => 0
    importContentDataRet := fun _ => 0
    importContentEndRet := fun _ => 0
    importTitleDoneRet := 0
    importTitleCancelRet := 0
    contentStored := fun _ _ => true }

/-- A NUS environment with a valid installed record at version 5 declaring
one content entry that is missing from secure storage. -/
def sampleNusEnvPartial : NusEnv :=
  { sampleNusEnv with
    installedTMD := fun _ =>
      { valid := true, titleId := 7, titleVersion := 5, numContents := 1, iosId := 0,
        contents := [⟨11, 0⟩] } }

/-- A NUS environment whose downloaded TMD declares required runtime 5,
which is not of system-title type and not installed. -/
def sampleNusEnvNonSystem : NusEnv :=
  { sampleNusEnv with
    downloadTMD := fun _ =>
      { valid := true, titleId := 9, titleVersion := 1, numContents := 1, iosId := 5,
        contents := [⟨11, 0⟩] } }

/-- A NUS environment whose downloaded TMD for title 9 declares the
system-type runtime 2 as prerequisite; the runtime's own TMD declares no
prerequisite, and everything succeeds. -/
def sampleNusEnvPrereq : NusEnv :=
  { sampleNusEnv with
    downloadTMD := fun t =>
      if t.id == 9 then
        { valid := true, titleId := 9, titleVersion := 1, numContents := 1, iosId := 2,
          contents := [⟨11, 0⟩] }
      else
        { valid := true, titleId := t.id, titleVersion := 1, numContents := 1, iosId := 0,
          contents := [⟨21, 0⟩] }
    isSystemTitle := fun x => x == 2 }

/-- A NUS environment where title 7 is already installed at version 5 with
all contents stored, so no update is needed. -/
def sampleNusEnvUpToDate : NusEnv :=
  { sampleNusEnv with
    installedTMD := fun _ =>
      { valid := true, titleId := 7, titleVersion := 5, numContents := 1, iosId := 0,
        contents := [⟨11, 0⟩] }
    contentStored := fun _ _ => true }

/-- A concrete parsed catalog response: root present, no error, an
encrypted-scheme URL and one TitleVersion node. -/
def sampleXML : TitlesXML :=
  { parsedOk := true, rootPresent := true, errorCode := 0,
    contentPrefixURL := ['h', 't', 't', 'p', 's', ':', '/', '/', 'a'],
    titleVersions := [(['1', 'a'], 2)] }

/-- Shared shape of the hypotheses under which the install reaches the
prerequisite check: the title is accepted and ticket and TMD were obtained. -/
def ReachesPrereqCheck (env : NusEnv) (title : TitleInfo) (u : List Nat) : Prop :=
  title.id ≠ BOOT2 ∧ ShouldInstallTitle env title = true ∧ u.contains title.id = false
    ∧ env.downloadTicket title = true ∧ ¬ env.importTicketRet title < 0
    ∧ (env.downloadTMD title).valid = true

/-- The prerequisite condition of WiiUtils.cpp:364-367: nonzero required IOS,
of system-title type, with no valid installed TMD. -/
def NeedsPrereq (env : NusEnv) (title : TitleInfo) : Prop :=
  (env.downloadTMD title).iosId ≠ 0 ∧ env.isSystemTitle (env.downloadTMD title).iosId
    ∧ (env.installedTMD (env.downloadTMD title).iosId).valid = false

instance (env : NusEnv) (title : TitleInfo) (u : List Nat) :
    Decidable (ReachesPrereqCheck env title u) := by unfold ReachesPrereqCheck; infer_instance

instance (env : NusEnv) (title : TitleInfo) : Decidable (NeedsPrereq env title) := by
  unfold NeedsPrereq; infer_instance

/-! ### Trace counting helper lemmas -/

theorem countEvents_nil (p : ESEvent → Bool) : CountEvents p [] = 0 := rfl

theorem countEvents_cons (p : ESEvent → Bool) (e : ESEvent) (l : List ESEvent) :
    CountEvents p (e :: l) = (if p e then 1 else 0) + CountEvents p l := by
  by_cases h : p e <;> simp [CountEvents, List.filter_cons, h, Nat.add_comm]

theorem countEvents_append (p : ESEvent → Bool) (a b : List ESEvent) :
    CountEvents p (a ++ b) = CountEvents p a + CountEvents p b := by
  simp [CountEvents, List.filter_append]

theorem countEvents_eq_zero (p : ESEvent → Bool) (l : List ESEvent)
    (h : ∀ e ∈ l, p e = false) : CountEvents p l = 0 := by
  induction l with
  | nil => rfl
  | cons e rest ih =>
    rw [countEvents_cons, h e (by simp), ih (fun x hx => h x (by simp [hx]))]
    simp

/-! ### Branch equations for the NUS content loop and InstallCore -/

theorem nusContents_nil (env : NusEnv) (t : TitleInfo) (stored : List Content) :
    NusContents env t stored [] = (.Succeeded, []) := rfl

theorem nusContents_skip (env : NusEnv) (t : TitleInfo) (stored : List Content)
    (c : Content) (rest : List Content)
    (h : stored.any (fun sc => sc.id == c.id) = true) :
    NusContents env t stored (c :: rest) = NusContents env t stored rest := by
  simp [NusContents, h]

theorem nusContents_begin_fail (env : NusEnv) (t : TitleInfo) (stored : List Content)
    (c : Content) (rest : List Content)
    (h : stored.any (fun sc => sc.id == c.id) = false)
    (hb : env.importContentBeginRet t.id c.id < 0) :
    NusContents env t stored (c :: rest)
      = (.ImportFailed, [.importContentBegin t.id c.id (env.importContentBeginRet t.id c.id)]) := by
  simp [NusContents, h, hb]

theorem nusContents_download_fail (env : NusEnv) (t : TitleInfo) (stored : List Content)
    (c : Content) (rest : List Content)
    (h : stored.any (fun sc => sc.id == c.id) = false)
    (hb : ¬ env.importContentBeginRet t.id c.id < 0)
    (hd : env.downloadContent t c.id = false) :
    NusContents env t stored (c :: rest)
      = (.DownloadFailed, [.importContentBegin t.id c.id (env.importContentBeginRet t.id c.id)]) := by
  simp [NusContents, h, hb, hd]

theorem nusContents_data_fail (env : NusEnv) (t : TitleInfo) (stored : List Content)
    (c : Content) (rest : List Content)
    (h : stored.any (fun sc => sc.id == c.id) = false)
    (hb : ¬ env.importContentBeginRet t.id c.id < 0)
    (hd : env.downloadContent t c.id = true)
    (hdata : env.importContentDataRet c.id < 0) :
    NusContents env t stored (c :: rest)
      = (.ImportFailed, [.importContentBegin t.id c.id (env.importContentBeginRet t.id c.id),
                         .importContentData c.id (env.importContentDataRet c.id)]) := by
  simp [NusContents, h, hb, hd, hdata]

theorem nusContents_end_fail (env : NusEnv) (t : TitleInfo) (stored : List Content)
    (c : Content) (rest : List Content)
    (h : stored.any (fun sc => sc.id == c.id) = false)
    (hb : ¬ env.importContentBeginRet t.id c.id < 0)
    (hd : env.downloadContent t c.id = true)
    (hdata : ¬ env.importContentDataRet c.id < 0)
    (hend : env.importContentEndRet c.id < 0) :
    NusContents env t stored (c :: rest)
      = (.ImportFailed, [.importContentBegin t.id c.id (env.importContentBeginRet t.id c.id),
                         .importContentData c.id (env.importContentDataRet c.id),
                         .importContentEnd c.id (env.importContentEndRet c.id)]) := by
  simp [NusContents, h, hb, hd, hdata, hend]

theorem nusContents_step (env : NusEnv) (t : TitleInfo) (stored : List Content)
    (c : Content) (rest : List Content)
    (h : stored.any (fun sc => sc.id == c.id) = false)
    (hb : ¬ env.importContentBeginRet t.id c.id < 0)
    (hd : env.downloadContent t c.id = true)
    (hdata : ¬ env.importContentDataRet c.id < 0)
    (hend : ¬ env.importContentEndRet c.id < 0) :
    NusContents env t stored (c :: rest)
      = ((NusContents env t stored rest).1,
         .importContentBegin t.id c.id (env.importContentBeginRet t.id c.id)
           :: .importContentData c.id (env.importContentDataRet c.id)
           :: .importContentEnd c.id (env.importContentEndRet c.id)
           :: (NusContents env t stored rest).2) := by
  simp [NusContents, h, hb, hd, hdata, hend]

theorem mem_nusContents_isContent (env : NusEnv) (t : TitleInfo) (stored : List Content) :
    ∀ l e, e ∈ (NusContents env t stored l).2 → IsContentEvt e = true := by
  intro l
  induction l with
  | nil => intro e h; simp [NusContents] at h
  | cons c rest ih =>
    intro e h
    by_cases h1 : stored.any (fun sc => sc.id == c.id)
    · rw [nusContents_skip env t stored c rest h1] at h
      exact ih e h
    · replace h1 : stored.any (fun sc => sc.id == c.id) = false := by simpa using h1
      by_cases h2 : env.importContentBeginRet t.id c.id < 0
      · rw [nusContents_begin_fail env t stored c rest h1 h2] at h
        simp at h; subst h; rfl
      · by_cases h3 : env.downloadContent t c.id
        · by_cases h4 : env.importContentDataRet c.id < 0
          · rw [nusContents_data_fail env t stored c rest h1 h2 h3 h4] at h
            simp at h; rcases h with rfl | rfl <;> rfl
          · by_cases h5 : env.importContentEndRet c.id < 0
            · rw [nusContents_end_fail env t stored c rest h1 h2 h3 h4 h5] at h
              simp at h; rcases h with rfl | rfl | rfl <;> rfl
            · rw [nusContents_step env t stored c rest h1 h2 h3 h4 h5] at h
              simp at h
              rcases h with rfl | rfl | rfl | hmem
              · rfl
              · rfl
              · rfl
              · exact ih e hmem
        · replace h3 : env.downloadContent t c.id = false := by simpa using h3
          rw [nusContents_download_fail env t stored c rest h1 h2 h3] at h
          simp at h; subst h; rfl

theorem nusContents_count_zero (env : NusEnv) (t : TitleInfo) (stored : List Content)
    (l : List Content) (p : ESEvent → Bool) (hp : ∀ e, IsContentEvt e = true → p e = false) :
    CountEvents p (NusContents env t stored l).2 = 0 :=
  countEvents_eq_zero p _ (fun e he => hp e (mem_nusContents_isContent env t stored l e he))

theorem isContent_not_doneOrCancel (e : ESEvent) (h : IsContentEvt e = true) :
    IsDoneOrCancelEvt e = false := by cases e <;> simp_all [IsContentEvt, IsDoneOrCancelEvt]

theorem isContent_not_done (e : ESEvent) (h : IsContentEvt e = true) : IsDoneEvt e = false := by
  cases e <;> simp_all [IsContentEvt, IsDoneEvt]

theorem isContent_not_cancel (e : ESEvent) (h : IsContentEvt e = true) : IsCancelEvt e = false := by
  cases e <;> simp_all [IsContentEvt, IsCancelEvt]

theorem isContent_not_initOk (e : ESEvent) (h : IsContentEvt e = true) : IsInitOkEvt e = false := by
  cases e <;> simp_all [IsContentEvt, IsInitOkEvt]

theorem isContent_not_ticket (e : ESEvent) (h : IsContentEvt e = true) : IsTicketEvt e = false := by
  cases e <;> simp_all [IsContentEvt, IsTicketEvt]

theorem isContent_not_init (e : ESEvent) (h : IsContentEvt e = true) : IsInitEvt e = false := by
  cases e <;> simp_all [IsContentEvt, IsInitEvt]

/-! ### InstallCore branch equations and commit/cancel lemmas -/

theorem installCore_init_fail (env : NusEnv) (t : TitleInfo) (tmd : TMD)
    (h : env.importTitleInitRet t < 0) :
    InstallCore env t tmd = (.ImportFailed, [.importTitleInit t.id (env.importTitleInitRet t)]) := by
  simp [InstallCore, h]

theorem installCore_commit (env : NusEnv) (t : TitleInfo) (tmd : TMD)
    (h : ¬ env.importTitleInitRet t < 0)
    (hb : (NusContents env t (GetStoredContentsFromTMD env tmd) tmd.contents).1 = .Succeeded) :
    InstallCore env t tmd
      = (if env.importTitleDoneRet t.id < 0 then .ImportFailed else .Succeeded,
         .importTitleInit t.id (env.importTitleInitRet t)
           :: (NusContents env t (GetStoredContentsFromTMD env tmd) tmd.contents).2
           ++ [.importTitleDone t.id (env.importTitleDoneRet t.id)]) := by
  simp [InstallCore, h, hb]

theorem installCore_cancel (env : NusEnv) (t : TitleInfo) (tmd : TMD)
    (h : ¬ env.importTitleInitRet t < 0)
    (hb : (NusContents env t (GetStoredContentsFromTMD env tmd) tmd.contents).1 ≠ .Succeeded) :
    InstallCore env t tmd
      = (if env.importTitleCancelRet t.id < 0 then .ImportFailed
           else (NusContents env t (GetStoredContentsFromTMD env tmd) tmd.contents).1,
         .importTitleInit t.id (env.importTitleInitRet t)
           :: (NusContents env t (GetStoredContentsFromTMD env tmd) tmd.contents).2
           ++ [.importTitleCancel t.id (env.importTitleCancelRet t.id)]) := by
  simp [InstallCore, h, hb]

theorem installCore_done_cancel (env : NusEnv) (t : TitleInfo) (tmd : TMD) :
    CountEvents IsDoneEvt (InstallCore env t tmd).2
      + CountEvents IsCancelEvt (InstallCore env t tmd).2
      = if 0 ≤ env.importTitleInitRet t then 1 else 0 := by
  by_cases hri : env.importTitleInitRet t < 0
  · have : ¬ (0 : Int) ≤ env.importTitleInitRet t := by omega
    rw [installCore_init_fail env t tmd hri]
    simp [this, countEvents_cons, countEvents_nil, IsDoneEvt, IsCancelEvt]
  · have h0 : (0 : Int) ≤ env.importTitleInitRet t := by omega
    by_cases hb : (NusContents env t (GetStoredContentsFromTMD env tmd) tmd.contents).1 = .Succeeded
    · rw [installCore_commit env t tmd hri hb]
      dsimp only
      simp only [countEvents_append, countEvents_cons, countEvents_nil,
        nusContents_count_zero _ _ _ _ _ isContent_not_done,
        nusContents_count_zero _ _ _ _ _ isContent_not_cancel]
      simp [IsDoneEvt, IsCancelEvt, h0]
    · rw [installCore_cancel env t tmd hri hb]
      dsimp only
      simp only [countEvents_append, countEvents_cons, countEvents_nil,
        nusContents_count_zero _ _ _ _ _ isContent_not_done,
        nusContents_count_zero _ _ _ _ _ isContent_not_cancel]
      simp [IsDoneEvt, IsCancelEvt, h0]

theorem installCore_DC_initOk (env : NusEnv) (t : TitleInfo) (tmd : TMD) :
    CountEvents IsDoneOrCancelEvt (InstallCore env t tmd).2
      = CountEvents IsInitOkEvt (InstallCore env t tmd).2 := by
  by_cases hri : env.importTitleInitRet t < 0
  · have : ¬ (0 : Int) ≤ env.importTitleInitRet t := by omega
    rw [installCore_init_fail env t tmd hri]
    simp [this, countEvents_cons, countEvents_nil, IsDoneOrCancelEvt, IsInitOkEvt]
  · have h0 : (0 : Int) ≤ env.importTitleInitRet t := by omega
    by_cases hb : (NusContents env t (GetStoredContentsFromTMD env tmd) tmd.contents).1 = .Succeeded
    · rw [installCore_commit env t tmd hri hb]
      dsimp only
      simp only [countEvents_append, countEvents_cons, countEvents_nil,
        nusContents_count_zero _ _ _ _ _ isContent_not_doneOrCancel,
        nusContents_count_zero _ _ _ _ _ isContent_not_initOk]
      simp [IsDoneOrCancelEvt, IsInitOkEvt, h0]
    · rw [installCore_cancel env t tmd hri hb]
      dsimp only
      simp only [countEvents_append, countEvents_cons, countEvents_nil,
        nusContents_count_zero _ _ _ _ _ isContent_not_doneOrCancel,
        nusContents_count_zero _ _ _ _ _ isContent_not_initOk]
      simp [IsDoneOrCancelEvt, IsInitOkEvt, h0]

/-! ### Branch equations for one level of InstallTitleFromNUS -/

theorem installStep_boot2 (env : NusEnv) (oracle : Option (TitleInfo → List Nat →
    UpdateResult × List Nat × List ESEvent)) (title : TitleInfo) (u : List Nat)
    (h : title.id = BOOT2) : InstallStep env oracle title u = (.Succeeded, u, []) := by
  simp [InstallStep, h]

theorem installStep_noInstall (env : NusEnv) (oracle : Option (TitleInfo → List Nat →
    UpdateResult × List Nat × List ESEvent)) (title : TitleInfo) (u : List Nat)
    (h1 : title.id ≠ BOOT2) (h2 : ShouldInstallTitle env title = false) :
    InstallStep env oracle title u = (.Succeeded, u, []) := by
  simp [InstallStep, h1, h2]

theorem installStep_inUpdated (env : NusEnv) (oracle : Option (TitleInfo → List Nat →
    UpdateResult × List Nat × List ESEvent)) (title : TitleInfo) (u : List Nat)
    (h1 : title.id ≠ BOOT2) (h2 : ShouldInstallTitle env title = true)
    (h3 : u.contains title.id = true) :
    InstallStep env oracle title u = (.Succeeded, u, []) := by
  have h3m : title.id ∈ u := by simpa using h3
  simp [InstallStep, h1, h2, h3m]

theorem installStep_ticketDownload_fail (env : NusEnv) (oracle : Option (TitleInfo → List Nat →
    UpdateResult × List Nat × List ESEvent)) (title : TitleInfo) (u : List Nat)
    (h1 : title.id ≠ BOOT2) (h2 : ShouldInstallTitle env title = true)
    (h3 : u.contains title.id = false) (h4 : env.downloadTicket title = false) :
    InstallStep env oracle title u = (.DownloadFailed, u, []) := by
  have h3m : title.id ∉ u := by simpa using h3
  simp [InstallStep, h1, h2, h3m, h4]

theorem installStep_ticket_fail (env : NusEnv) (oracle : Option (TitleInfo → List Nat →
    UpdateResult × List Nat × List ESEvent)) (title : TitleInfo) (u : List Nat)
    (h1 : title.id ≠ BOOT2) (h2 : ShouldInstallTitle env title = true)
    (h3 : u.contains title.id = false) (h4 : env.downloadTicket title = true)
    (h5 : env.importTicketRet title < 0) :
    InstallStep env oracle title u
      = (.ImportFailed, u, [.importTicket title.id (env.importTicketRet title)]) := by
  have h3m : title.id ∉ u := by simpa using h3
  simp [InstallStep, h1, h2, h3m, h4, h5]

theorem installStep_tmd_fail (env : NusEnv) (oracle : Option (TitleInfo → List Nat →
    UpdateResult × List Nat × List ESEvent)) (title : TitleInfo) (u : List Nat)
    (h1 : title.id ≠ BOOT2) (h2 : ShouldInstallTitle env title = true)
    (h3 : u.contains title.id = false) (h4 : env.downloadTicket title = true)
    (h5 : ¬ env.importTicketRet title < 0) (h6 : (env.downloadTMD title).valid = false) :
    InstallStep env oracle title u
      = (.DownloadFailed, u, [.importTicket title.id (env.importTicketRet title)]) := by
  have h3m : title.id ∉ u := by simpa using h3
  simp [InstallStep, h1, h2, h3m, h4, h5, h6]

theorem installStep_depth_exhausted (env : NusEnv) (title : TitleInfo) (u : List Nat)
    (hr : ReachesPrereqCheck env title u) (hp : NeedsPrereq env title) :
    InstallStep env none title u
      = (.ImportFailed, u, [.importTicket title.id (env.importTicketRet title)]) := by
  obtain ⟨h1, h2, h3, h4, h5, h6⟩ := hr
  obtain ⟨p1, p2, p3⟩ := hp
  have h3m : title.id ∉ u := by simpa using h3
  simp [InstallStep, h1, h2, h3m, h4, h5, h6, p1, p2, p3]

theorem installStep_prereq_fail (env : NusEnv)
    (f : TitleInfo → List Nat → UpdateResult × List Nat × List ESEvent)
    (title : TitleInfo) (u : List Nat)
    (hr : ReachesPrereqCheck env title u) (hp : NeedsPrereq env title)
    (hsub : (f ⟨(env.downloadTMD title).iosId, 0⟩ u).1 ≠ .Succeeded) :
    InstallStep env (some f) title u
      = ((f ⟨(env.downloadTMD title).iosId, 0⟩ u).1,
         (f ⟨(env.downloadTMD title).iosId, 0⟩ u).2.1,
         .importTicket title.id (env.importTicketRet title)
           :: (f ⟨(env.downloadTMD title).iosId, 0⟩ u).2.2) := by
  obtain ⟨h1, h2, h3, h4, h5, h6⟩ := hr
  obtain ⟨p1, p2, p3⟩ := hp
  have h3m : title.id ∉ u := by simpa using h3
  simp [InstallStep, h1, h2, h3m, h4, h5, h6, p1, p2, p3, hsub]

theorem installStep_prereq_ok (env : NusEnv)
    (f : TitleInfo → List Nat → UpdateResult × List Nat × List ESEvent)
    (title : TitleInfo) (u : List Nat)
    (hr : ReachesPrereqCheck env title u) (hp : NeedsPrereq env title)
    (hsub : (f ⟨(env.downloadTMD title).iosId, 0⟩ u).1 = .Succeeded) :
    InstallStep env (some f) title u
      = (if (InstallCore env title (env.downloadTMD title)).1 = .Succeeded
           then .Succeeded else (InstallCore env title (env.downloadTMD title)).1,
         if (InstallCore env title (env.downloadTMD title)).1 = .Succeeded
           then title.id :: (f ⟨(env.downloadTMD title).iosId, 0⟩ u).2.1
           else (f ⟨(env.downloadTMD title).iosId, 0⟩ u).2.1,
         .importTicket title.id (env.importTicketRet title)
           :: (f ⟨(env.downloadTMD title).iosId, 0⟩ u).2.2
           ++ (InstallCore env title (env.downloadTMD title)).2) := by
  obtain ⟨h1, h2, h3, h4, h5, h6⟩ := hr
  obtain ⟨p1, p2, p3⟩ := hp
  have h3m : title.id ∉ u := by simpa using h3
  simp [InstallStep, h1, h2, h3m, h4, h5, h6, p1, p2, p3, hsub]

theorem installStep_noPrereq (env : NusEnv) (oracle : Option (TitleInfo → List Nat →
    UpdateResult × List Nat × List ESEvent)) (title : TitleInfo) (u : List Nat)
    (hr : ReachesPrereqCheck env title u) (hp : ¬ NeedsPrereq env title) :
    InstallStep env oracle title u
      = (if (InstallCore env title (env.downloadTMD title)).1 = .Succeeded
           then .Succeeded else (InstallCore env title (env.downloadTMD title)).1,
         if (InstallCore env title (env.downloadTMD title)).1 = .Succeeded
           then title.id :: u else u,
         .importTicket title.id (env.importTicketRet title)
           :: (InstallCore env title (env.downloadTMD title)).2) := by
  obtain ⟨h1, h2, h3, h4, h5, h6⟩ := hr
  have h3m : title.id ∉ u := by simpa using h3
  rw [show (¬ NeedsPrereq env title) =
      (¬ ((env.downloadTMD title).iosId ≠ 0 ∧ env.isSystemTitle (env.downloadTMD title).iosId
        ∧ (env.installedTMD (env.downloadTMD title).iosId).valid = false)) from rfl] at hp
  simp [InstallStep, h1, h2, h3m, h4, h5, h6, hp]

theorem installStep_DC_initOk (env : NusEnv)
    (oracle : Option (TitleInfo → List Nat → UpdateResult × List Nat × List ESEvent))
    (t : TitleInfo) (u : List Nat)
    (hor : ∀ f, oracle = some f → ∀ t' u',
      CountEvents IsDoneOrCancelEvt (f t' u').2.2 = CountEvents IsInitOkEvt (f t' u').2.2) :
    CountEvents IsDoneOrCancelEvt (InstallStep env oracle t u).2.2
      = CountEvents IsInitOkEvt (InstallStep env oracle t u).2.2 := by
  by_cases h1 : t.id = BOOT2
  · rw [installStep_boot2 env oracle t u h1]
    rfl
  by_cases h2 : ShouldInstallTitle env t = false
  · rw [installStep_noInstall env oracle t u h1 h2]
    rfl
  replace h2 : ShouldInstallTitle env t = true := by simpa using h2
  by_cases h3 : u.contains t.id
  · rw [installStep_inUpdated env oracle t u h1 h2 h3]
    rfl
  replace h3 : u.contains t.id = false := by simpa using h3
  by_cases h4 : env.downloadTicket t
  swap
  · replace h4 : env.downloadTicket t = false := by simpa using h4
    rw [installStep_ticketDownload_fail env oracle t u h1 h2 h3 h4]
    rfl
  by_cases h5 : env.importTicketRet t < 0
  · rw [installStep_ticket_fail env oracle t u h1 h2 h3 h4 h5]
    rfl
  by_cases h6 : (env.downloadTMD t).valid
  swap
  · replace h6 : (env.downloadTMD t).valid = false := by simpa using h6
    rw [installStep_tmd_fail env oracle t u h1 h2 h3 h4 h5 h6]
    rfl
  have hr : ReachesPrereqCheck env t u := ⟨h1, h2, h3, h4, h5, h6⟩
  by_cases hp : NeedsPrereq env t
  · match oracle, hor with
    | none, _ =>
      rw [installStep_depth_exhausted env t u hr hp]
      rfl
    | some f, hor =>
      by_cases hsub : (f ⟨(env.downloadTMD t).iosId, 0⟩ u).1 = .Succeeded
      · rw [installStep_prereq_ok env f t u hr hp hsub]
        dsimp only
        simp only [countEvents_cons, countEvents_append, installCore_DC_initOk,
          hor f rfl]
        rfl
      · rw [installStep_prereq_fail env f t u hr hp hsub]
        dsimp only
        simp only [countEvents_cons, hor f rfl]
        rfl
  · rw [installStep_noPrereq env oracle t u hr hp]
    dsimp only
    simp only [countEvents_cons, installCore_DC_initOk]
    rfl

theorem installTitleFromNUS_DC_initOk (env : NusEnv) :
    ∀ (fuel : Nat) (t : TitleInfo) (u : List Nat),
      CountEvents IsDoneOrCancelEvt (InstallTitleFromNUS env fuel t u).2.2
        = CountEvents IsInitOkEvt (InstallTitleFromNUS env fuel t u).2.2 := by
  intro fuel
  induction fuel with
  | zero =>
    intro t u
    exact installStep_DC_initOk env none t u (by intro f hf; cases hf)
  | succ n ih =>
    intro t u
    exact installStep_DC_initOk env _ t u
      (by intro f hf t' u'; cases hf; exact ih t' u')


/-! ### Branch equations for InstallWAD -/

theorem wadAttempt_ticket_fail (env : WadEnv) (flag : Bool)
    (h : env.importTicketRet flag < 0) :
    WadAttempt env flag
      = (env.importTicketRet flag,
         [.importTicket env.wad.tmd.titleId (env.importTicketRet flag)]) := by
  simp [WadAttempt, h]

theorem wadAttempt_ticket_ok (env : WadEnv) (flag : Bool)
    (h : ¬ env.importTicketRet flag < 0) :
    WadAttempt env flag
      = (env.importTitleInitRet flag,
         [.importTicket env.wad.tmd.titleId (env.importTicketRet flag),
          .importTitleInit env.wad.tmd.titleId (env.importTitleInitRet flag)]) := by
  simp [WadAttempt, h]

theorem wadLoop_zero (env : WadEnv) (flag : Bool) :
    WadTicketInitLoop env 0 flag = (false, flag, []) := rfl

theorem wadLoop_exit_ok (env : WadEnv) (fuel : Nat) (flag : Bool)
    (h : ¬ (WadAttempt env flag).1 < 0) :
    WadTicketInitLoop env (fuel + 1) flag
      = (true, env.checksEnabled, (WadAttempt env flag).2) := by
  simp [WadTicketInitLoop, h]

theorem wadLoop_exit_fail (env : WadEnv) (fuel : Nat) (flag : Bool)
    (ha : (WadAttempt env flag).1 < 0)
    (hg : ¬ (env.checksEnabled = true ∧ (WadAttempt env flag).1 = IOSC_FAIL_CHECKVALUE
            ∧ env.askYesNo = true)) :
    WadTicketInitLoop env (fuel + 1) flag
      = (false, env.checksEnabled, (WadAttempt env flag).2) := by
  simp only [WadTicketInitLoop]
  rw [if_pos ha, if_neg hg]

theorem wadLoop_retry (env : WadEnv) (fuel : Nat) (flag : Bool)
    (ha : (WadAttempt env flag).1 < 0)
    (hg : env.checksEnabled = true ∧ (WadAttempt env flag).1 = IOSC_FAIL_CHECKVALUE
          ∧ env.askYesNo = true) :
    WadTicketInitLoop env (fuel + 1) flag
      = ((WadTicketInitLoop env fuel false).1, (WadTicketInitLoop env fuel false).2.1,
         (WadAttempt env flag).2 ++ (WadTicketInitLoop env fuel false).2.2) := by
  simp only [WadTicketInitLoop]
  rw [if_pos ha, if_pos hg]

theorem wadContents_nil (env : WadEnv) : WadContents env [] = (true, []) := rfl

theorem wadContents_begin_fail (env : WadEnv) (c : Content) (rest : List Content)
    (hb : env.importContentBeginRet env.wad.tmd.titleId c.id < 0) :
    WadContents env (c :: rest)
      = (false, [.importContentBegin env.wad.tmd.titleId c.id
                   (env.importContentBeginRet env.wad.tmd.titleId c.id)]) := by
  simp [WadContents, hb]

theorem wadContents_data_fail (env : WadEnv) (c : Content) (rest : List Content)
    (hb : ¬ env.importContentBeginRet env.wad.tmd.titleId c.id < 0)
    (hdata : env.importContentDataRet c.id < 0) :
    WadContents env (c :: rest)
      = (false, [.importContentBegin env.wad.tmd.titleId c.id
                   (env.importContentBeginRet env.wad.tmd.titleId c.id),
                 .importContentData c.id (env.importContentDataRet c.id)]) := by
  simp [WadContents, hb, hdata]

theorem wadContents_end_fail (env : WadEnv) (c : Content) (rest : List Content)
    (hb : ¬ env.importContentBeginRet env.wad.tmd.titleId c.id < 0)
    (hdata : ¬ env.importContentDataRet c.id < 0)
    (hend : env.importContentEndRet c.id < 0) :
    WadContents env (c :: rest)
      = (false, [.importContentBegin env.wad.tmd.titleId c.id
                   (env.importContentBeginRet env.wad.tmd.titleId c.id),
                 .importContentData c.id (env.importContentDataRet c.id),
                 .importContentEnd c.id (env.importContentEndRet c.id)]) := by
  simp [WadContents, hb, hdata, hend]

theorem wadContents_step (env : WadEnv) (c : Content) (rest : List Content)
    (hb : ¬ env.importContentBeginRet env.wad.tmd.titleId c.id < 0)
    (hdata : ¬ env.importContentDataRet c.id < 0)
    (hend : ¬ env.importContentEndRet c.id < 0) :
    WadContents env (c :: rest)
      = ((WadContents env rest).1,
         .importContentBegin env.wad.tmd.titleId c.id
             (env.importContentBeginRet env.wad.tmd.titleId c.id)
           :: .importContentData c.id (env.importContentDataRet c.id)
           :: .importContentEnd c.id (env.importContentEndRet c.id)
           :: (WadContents env rest).2) := by
  simp [WadContents, hb, hdata, hend]

theorem installWAD_invalid (env : WadEnv) (fuel : Nat) (h : env.wad.valid = false) :
    InstallWAD env fuel = (false, env.checksEnabled, []) := by
  simp [InstallWAD, h]

theorem installWAD_loop_fail (env : WadEnv) (fuel : Nat) (hv : env.wad.valid = true)
    (h : (WadTicketInitLoop env fuel env.checksEnabled).1 = false) :
    InstallWAD env fuel
      = (false, (WadTicketInitLoop env fuel env.checksEnabled).2.1,
         (WadTicketInitLoop env fuel env.checksEnabled).2.2) := by
  simp [InstallWAD, hv, h]

theorem installWAD_commit (env : WadEnv) (fuel : Nat) (hv : env.wad.valid = true)
    (hl : (WadTicketInitLoop env fuel env.checksEnabled).1 = true)
    (hc : (WadContents env env.wad.tmd.contents).1 = true) :
    InstallWAD env fuel
      = (if env.importTitleDoneRet < 0 then false else true,
         (WadTicketInitLoop env fuel env.checksEnabled).2.1,
         (WadTicketInitLoop env fuel env.checksEnabled).2.2
           ++ (WadContents env env.wad.tmd.contents).2
           ++ [.importTitleDone env.wad.tmd.titleId env.importTitleDoneRet]) := by
  simp [InstallWAD, hv, hl, hc]

theorem installWAD_cancel (env : WadEnv) (fuel : Nat) (hv : env.wad.valid = true)
    (hl : (WadTicketInitLoop env fuel env.checksEnabled).1 = true)
    (hc : (WadContents env env.wad.tmd.contents).1 = false) :
    InstallWAD env fuel
      = (if env.importTitleCancelRet < 0 then false else true,
         (WadTicketInitLoop env fuel env.checksEnabled).2.1,
         (WadTicketInitLoop env fuel env.checksEnabled).2.2
           ++ (WadContents env env.wad.tmd.contents).2
           ++ [.importTitleCancel env.wad.tmd.titleId env.importTitleCancelRet]) := by
  simp [InstallWAD, hv, hl, hc]

/-! ### WAD trace counting -/

theorem mem_wadContents_isContent (env : WadEnv) :
    ∀ l e, e ∈ (WadContents env l).2 → IsContentEvt e = true := by
  intro l
  induction l with
  | nil => intro e h; simp [WadContents] at h
  | cons c rest ih =>
    intro e h
    by_cases hb : env.importContentBeginRet env.wad.tmd.titleId c.id < 0
    · rw [wadContents_begin_fail env c rest hb] at h
      simp at h; subst h; rfl
    · by_cases hdata : env.importContentDataRet c.id < 0
      · rw [wadContents_data_fail env c rest hb hdata] at h
        simp at h; rcases h with rfl | rfl <;> rfl
      · by_cases hend : env.importContentEndRet c.id < 0
        · rw [wadContents_end_fail env c rest hb hdata hend] at h
          simp at h; rcases h with rfl | rfl | rfl <;> rfl
        · rw [wadContents_step env c rest hb hdata hend] at h
          simp at h
          rcases h with rfl | rfl | rfl | hmem
          · rfl
          · rfl
          · rfl
          · exact ih e hmem

theorem wadContents_count_zero (env : WadEnv) (l : List Content) (p : ESEvent → Bool)
    (hp : ∀ e, IsContentEvt e = true → p e = false) :
    CountEvents p (WadContents env l).2 = 0 :=
  countEvents_eq_zero p _ (fun e he => hp e (mem_wadContents_isContent env l e he))

theorem wadAttempt_counts (env : WadEnv) (flag : Bool) :
    CountEvents IsTicketEvt (WadAttempt env flag).2 = 1
      ∧ CountEvents IsInitEvt (WadAttempt env flag).2 ≤ 1
      ∧ CountEvents IsDoneOrCancelEvt (WadAttempt env flag).2 = 0
      ∧ CountEvents IsInitOkEvt (WadAttempt env flag).2
          = (if (WadAttempt env flag).1 < 0 then 0 else 1) := by
  by_cases h : env.importTicketRet flag < 0
  · rw [wadAttempt_ticket_fail env flag h]
    simp [CountEvents, IsTicketEvt, IsInitEvt, IsDoneOrCancelEvt, IsInitOkEvt, h]
  · rw [wadAttempt_ticket_ok env flag h]
    by_cases h2 : env.importTitleInitRet flag < 0
    · have : ¬ (0 : Int) ≤ env.importTitleInitRet flag := by omega
      simp [CountEvents, IsTicketEvt, IsInitEvt, IsDoneOrCancelEvt, IsInitOkEvt, h2, this,
        List.filter_cons]
    · have : (0 : Int) ≤ env.importTitleInitRet flag := by omega
      simp [CountEvents, IsTicketEvt, IsInitEvt, IsDoneOrCancelEvt, IsInitOkEvt, h2, this,
        List.filter_cons]

theorem wadLoop_initOk (env : WadEnv) :
    ∀ (fuel : Nat) (flag : Bool),
      CountEvents IsInitOkEvt (WadTicketInitLoop env fuel flag).2.2
        = (if (WadTicketInitLoop env fuel flag).1 = true then 1 else 0) := by
  intro fuel
  induction fuel with
  | zero => intro flag; simp [wadLoop_zero, countEvents_nil]
  | succ n ih =>
    intro flag
    by_cases ha : (WadAttempt env flag).1 < 0
    · by_cases hg : env.checksEnabled = true ∧ (WadAttempt env flag).1 = IOSC_FAIL_CHECKVALUE
          ∧ env.askYesNo = true
      · rw [wadLoop_retry env n flag ha hg]
        dsimp only
        rw [countEvents_append, ih false]
        have := (wadAttempt_counts env flag).2.2.2
        rw [if_pos ha] at this
        rw [this]
        omega
      · rw [wadLoop_exit_fail env n flag ha hg]
        dsimp only
        have := (wadAttempt_counts env flag).2.2.2
        rw [if_pos ha] at this
        simp [this]
    · rw [wadLoop_exit_ok env n flag ha]
      dsimp only
      have := (wadAttempt_counts env flag).2.2.2
      rw [if_neg ha] at this
      simp [this]

theorem wadLoop_DC_zero (env : WadEnv) :
    ∀ (fuel : Nat) (flag : Bool),
      CountEvents IsDoneOrCancelEvt (WadTicketInitLoop env fuel flag).2.2 = 0 := by
  intro fuel
  induction fuel with
  | zero => intro flag; simp [wadLoop_zero, countEvents_nil]
  | succ n ih =>
    intro flag
    by_cases ha : (WadAttempt env flag).1 < 0
    · by_cases hg : env.checksEnabled = true ∧ (WadAttempt env flag).1 = IOSC_FAIL_CHECKVALUE
          ∧ env.askYesNo = true
      · rw [wadLoop_retry env n flag ha hg]
        dsimp only
        rw [countEvents_append, ih false, (wadAttempt_counts env flag).2.2.1]
      · rw [wadLoop_exit_fail env n flag ha hg]
        dsimp only
        exact (wadAttempt_counts env flag).2.2.1
    · rw [wadLoop_exit_ok env n flag ha]
      dsimp only
      exact (wadAttempt_counts env flag).2.2.1

theorem installWAD_DC_initOk (env : WadEnv) (fuel : Nat) :
    CountEvents IsDoneOrCancelEvt (InstallWAD env fuel).2.2
        = CountEvents IsInitOkEvt (InstallWAD env fuel).2.2
      ∧ CountEvents IsDoneOrCancelEvt (InstallWAD env fuel).2.2 ≤ 1 := by
  by_cases hv : env.wad.valid = true
  · by_cases hl : (WadTicketInitLoop env fuel env.checksEnabled).1 = true
    · by_cases hc : (WadContents env env.wad.tmd.contents).1 = true
      · rw [installWAD_commit env fuel hv hl hc]
        dsimp only
        rw [countEvents_append, countEvents_append, countEvents_append, countEvents_append,
          wadLoop_DC_zero env fuel, wadLoop_initOk env fuel,
          wadContents_count_zero env _ _ isContent_not_doneOrCancel,
          wadContents_count_zero env _ _ isContent_not_initOk, hl]
        simp [CountEvents, IsDoneOrCancelEvt, IsInitOkEvt]
      · have hc2 : (WadContents env env.wad.tmd.contents).1 = false := by simpa using hc
        rw [installWAD_cancel env fuel hv hl hc2]
        dsimp only
        rw [countEvents_append, countEvents_append, countEvents_append, countEvents_append,
          wadLoop_DC_zero env fuel, wadLoop_initOk env fuel,
          wadContents_count_zero env _ _ isContent_not_doneOrCancel,
          wadContents_count_zero env _ _ isContent_not_initOk, hl]
        simp [CountEvents, IsDoneOrCancelEvt, IsInitOkEvt]
    · have hl2 : (WadTicketInitLoop env fuel env.checksEnabled).1 = false := by simpa using hl
      rw [installWAD_loop_fail env fuel hv hl2]
      dsimp only
      rw [wadLoop_DC_zero env fuel, wadLoop_initOk env fuel, hl2]
      simp
  · have hv2 : env.wad.valid = false := by simpa using hv
    rw [installWAD_invalid env fuel hv2]
    exact ⟨rfl, by simp [countEvents_nil]⟩


/-! ### Claim C2: signature-check retry lemmas -/

theorem wadAttempt_not_checkvalue (env : WadEnv) (h : NoDisabledCheckFailure env) :
    (WadAttempt env false).1 ≠ IOSC_FAIL_CHECKVALUE := by
  by_cases hb : env.importTicketRet false < 0
  · rw [wadAttempt_ticket_fail env false hb]
    exact h.1
  · rw [wadAttempt_ticket_ok env false hb]
    exact h.2

theorem wadLoop_false_flag (env : WadEnv) (h : NoDisabledCheckFailure env) (fuel : Nat) :
    WadTicketInitLoop env (fuel + 1) false
      = (if (WadAttempt env false).1 < 0 then false else true, env.checksEnabled,
         (WadAttempt env false).2) := by
  by_cases ha : (WadAttempt env false).1 < 0
  · rw [wadLoop_exit_fail env fuel false ha
      (by intro hg; exact wadAttempt_not_checkvalue env h hg.2.1)]
    rw [if_pos ha]
  · rw [wadLoop_exit_ok env fuel false ha, if_neg ha]

theorem wadLoop_stable (env : WadEnv) (h : NoDisabledCheckFailure env) (fuel : Nat)
    (flag : Bool) :
    WadTicketInitLoop env (fuel + 2) flag = WadTicketInitLoop env 2 flag := by
  by_cases ha : (WadAttempt env flag).1 < 0
  · by_cases hg : env.checksEnabled = true ∧ (WadAttempt env flag).1 = IOSC_FAIL_CHECKVALUE
        ∧ env.askYesNo = true
    · rw [show fuel + 2 = (fuel + 1) + 1 from rfl, wadLoop_retry env (fuel + 1) flag ha hg,
        show (2 : Nat) = 1 + 1 from rfl, wadLoop_retry env 1 flag ha hg]
      rw [wadLoop_false_flag env h fuel, wadLoop_false_flag env h 0]
    · rw [show fuel + 2 = (fuel + 1) + 1 from rfl, wadLoop_exit_fail env (fuel + 1) flag ha hg,
        show (2 : Nat) = 1 + 1 from rfl, wadLoop_exit_fail env 1 flag ha hg]
  · rw [show fuel + 2 = (fuel + 1) + 1 from rfl, wadLoop_exit_ok env (fuel + 1) flag ha,
      show (2 : Nat) = 1 + 1 from rfl, wadLoop_exit_ok env 1 flag ha]

theorem installWAD_stable (env : WadEnv) (h : NoDisabledCheckFailure env) (fuel : Nat)
    (hf : 2 ≤ fuel) : InstallWAD env fuel = InstallWAD env 2 := by
  obtain ⟨k, rfl⟩ : ∃ k, fuel = k + 2 := ⟨fuel - 2, by omega⟩
  unfold InstallWAD
  rw [wadLoop_stable env h k env.checksEnabled]

theorem wadLoop_two_flag (env : WadEnv) (h : NoDisabledCheckFailure env) (flag : Bool) :
    (WadTicketInitLoop env 2 flag).2.1 = env.checksEnabled := by
  by_cases ha : (WadAttempt env flag).1 < 0
  · by_cases hg : env.checksEnabled = true ∧ (WadAttempt env flag).1 = IOSC_FAIL_CHECKVALUE
        ∧ env.askYesNo = true
    · rw [show (2 : Nat) = 1 + 1 from rfl, wadLoop_retry env 1 flag ha hg]
      rw [wadLoop_false_flag env h 0]
    · rw [show (2 : Nat) = 1 + 1 from rfl, wadLoop_exit_fail env 1 flag ha hg]
  · rw [show (2 : Nat) = 1 + 1 from rfl, wadLoop_exit_ok env 1 flag ha]

theorem installWAD_flag_restored (env : WadEnv) (h : NoDisabledCheckFailure env) :
    (InstallWAD env 2).2.1 = env.checksEnabled := by
  by_cases hv : env.wad.valid = true
  · by_cases hl : (WadTicketInitLoop env 2 env.checksEnabled).1 = true
    · by_cases hc : (WadContents env env.wad.tmd.contents).1 = true
      · rw [installWAD_commit env 2 hv hl hc]
        exact wadLoop_two_flag env h env.checksEnabled
      · have hc2 : (WadContents env env.wad.tmd.contents).1 = false := by simpa using hc
        rw [installWAD_cancel env 2 hv hl hc2]
        exact wadLoop_two_flag env h env.checksEnabled
    · have hl2 : (WadTicketInitLoop env 2 env.checksEnabled).1 = false := by simpa using hl
      rw [installWAD_loop_fail env 2 hv hl2]
      exact wadLoop_two_flag env h env.checksEnabled
  · have hv2 : env.wad.valid = false := by simpa using hv
    rw [installWAD_invalid env 2 hv2]

theorem wadLoop_retry_counts (env : WadEnv) :
    ∀ (fuel : Nat) (flag : Bool),
      CountEvents IsTicketEvt (WadTicketInitLoop env fuel flag).2.2 ≤ fuel
        ∧ CountEvents IsInitEvt (WadTicketInitLoop env fuel flag).2.2 ≤ fuel := by
  intro fuel
  induction fuel with
  | zero => intro flag; simp [wadLoop_zero, countEvents_nil]
  | succ n ih =>
    intro flag
    have hat : CountEvents IsTicketEvt (WadAttempt env flag).2 = 1 :=
      (wadAttempt_counts env flag).1
    have hai : CountEvents IsInitEvt (WadAttempt env flag).2 ≤ 1 :=
      (wadAttempt_counts env flag).2.1
    by_cases ha : (WadAttempt env flag).1 < 0
    · by_cases hg : env.checksEnabled = true ∧ (WadAttempt env flag).1 = IOSC_FAIL_CHECKVALUE
          ∧ env.askYesNo = true
      · rw [wadLoop_retry env n flag ha hg]
        dsimp only
        rw [countEvents_append, countEvents_append]
        have := ih false
        omega
      · rw [wadLoop_exit_fail env n flag ha hg]
        dsimp only
        omega
    · rw [wadLoop_exit_ok env n flag ha]
      dsimp only
      omega

theorem wadLoop_no_retry (env : WadEnv)
    (h : env.checksEnabled = false ∨ env.askYesNo = false) (fuel : Nat) (flag : Bool) :
    CountEvents IsTicketEvt (WadTicketInitLoop env (fuel + 1) flag).2.2 ≤ 1 := by
  have hg : ¬ (env.checksEnabled = true ∧ (WadAttempt env flag).1 = IOSC_FAIL_CHECKVALUE
      ∧ env.askYesNo = true) := by
    rcases h with h | h <;> simp [h]
  by_cases ha : (WadAttempt env flag).1 < 0
  · rw [wadLoop_exit_fail env fuel flag ha hg]
    dsimp only
    rw [(wadAttempt_counts env flag).1]
  · rw [wadLoop_exit_ok env fuel flag ha]
    dsimp only
    rw [(wadAttempt_counts env flag).1]

theorem installWAD_loop_counts (env : WadEnv) (fuel : Nat)
    (p : ESEvent → Bool)
    (hp : ∀ e, IsContentEvt e = true → p e = false)
    (hd : ∀ t r, p (.importTitleDone t r) = false)
    (hc : ∀ t r, p (.importTitleCancel t r) = false)
    (hv : env.wad.valid = true) :
    CountEvents p (InstallWAD env fuel).2.2
      = CountEvents p (WadTicketInitLoop env fuel env.checksEnabled).2.2 := by
  by_cases hl : (WadTicketInitLoop env fuel env.checksEnabled).1 = true
  · by_cases hcs : (WadContents env env.wad.tmd.contents).1 = true
    · rw [installWAD_commit env fuel hv hl hcs]
      dsimp only
      rw [countEvents_append, countEvents_append, wadContents_count_zero env _ _ hp]
      simp [CountEvents, hd]
    · have hcs2 : (WadContents env env.wad.tmd.contents).1 = false := by simpa using hcs
      rw [installWAD_cancel env fuel hv hl hcs2]
      dsimp only
      rw [countEvents_append, countEvents_append, wadContents_count_zero env _ _ hp]
      simp [CountEvents, hc]
  · have hl2 : (WadTicketInitLoop env fuel env.checksEnabled).1 = false := by simpa using hl
    rw [installWAD_loop_fail env fuel hv hl2]

/-! ### Claim C1 -/

/-- C1: For every installation run (direct WAD install or one title of the
update planner), once a title-import context has been opened by a
successful ImportTitleInit, exactly one of ImportTitleDone or
ImportTitleCancel is invoked on that context before the install returns,
on every success and failure path, and no path returns with the context
neither committed nor cancelled.  Stated as: (1) the per-title transaction
InstallCore performs exactly one Done-or-Cancel call when title-init
succeeded and none otherwise; (2) over the whole (recursive)
InstallTitleFromNUS trace the number of Done/Cancel calls equals the
number of successful title-init calls; (3) likewise for InstallWAD, where
that number is moreover at most one. -/
theorem spec_C1_context_committed_or_cancelled_once :
    (∀ (env : NusEnv) (t : TitleInfo) (tmd : TMD),
       if 0 ≤ env.importTitleInitRet t
       then CountEvents IsDoneEvt (InstallCore env t tmd).2
              + CountEvents IsCancelEvt (InstallCore env t tmd).2 = 1
       else CountEvents IsDoneEvt (InstallCore env t tmd).2 = 0
              ∧ CountEvents IsCancelEvt (InstallCore env t tmd).2 = 0)
  ∧ (∀ (env : NusEnv) (fuel : Nat) (t : TitleInfo) (u : List Nat),
       CountEvents IsDoneOrCancelEvt (InstallTitleFromNUS env fuel t u).2.2
         = CountEvents IsInitOkEvt (InstallTitleFromNUS env fuel t u).2.2)
  ∧ (∀ (env : WadEnv) (fuel : Nat),
       CountEvents IsDoneOrCancelEvt (InstallWAD env fuel).2.2
         = CountEvents IsInitOkEvt (InstallWAD env fuel).2.2
       ∧ CountEvents IsDoneOrCancelEvt (InstallWAD env fuel).2.2 ≤ 1) := by
  refine ⟨?_, ?_, ?_⟩
  · intro env t tmd
    by_cases h : (0 : Int) ≤ env.importTitleInitRet t
    · rw [if_pos h]
      have := installCore_done_cancel env t tmd
      rwa [if_pos h] at this
    · rw [if_neg h]
      rw [installCore_init_fail env t tmd (by omega)]
      constructor <;> simp [CountEvents, IsDoneEvt, IsCancelEvt]
  · intro env fuel t u
    exact installTitleFromNUS_DC_initOk env fuel t u
  · intro env fuel
    exact installWAD_DC_initOk env fuel


theorem installCore_ticket_zero (env : NusEnv) (t : TitleInfo) (tmd : TMD) :
    CountEvents IsTicketEvt (InstallCore env t tmd).2 = 0 := by
  by_cases hri : env.importTitleInitRet t < 0
  · rw [installCore_init_fail env t tmd hri]
    simp [CountEvents, IsTicketEvt]
  · by_cases hb : (NusContents env t (GetStoredContentsFromTMD env tmd) tmd.contents).1
        = .Succeeded
    · rw [installCore_commit env t tmd hri hb]
      dsimp only
      simp only [countEvents_append, countEvents_cons, countEvents_nil,
        nusContents_count_zero _ _ _ _ _ isContent_not_ticket]
      simp [IsTicketEvt]
    · rw [installCore_cancel env t tmd hri hb]
      dsimp only
      simp only [countEvents_append, countEvents_cons, countEvents_nil,
        nusContents_count_zero _ _ _ _ _ isContent_not_ticket]
      simp [IsTicketEvt]

theorem installCore_init_one (env : NusEnv) (t : TitleInfo) (tmd : TMD) :
    CountEvents IsInitEvt (InstallCore env t tmd).2 = 1 := by
  by_cases hri : env.importTitleInitRet t < 0
  · rw [installCore_init_fail env t tmd hri]
    simp [CountEvents, IsInitEvt]
  · by_cases hb : (NusContents env t (GetStoredContentsFromTMD env tmd) tmd.contents).1
        = .Succeeded
    · rw [installCore_commit env t tmd hri hb]
      dsimp only
      simp only [countEvents_append, countEvents_cons, countEvents_nil,
        nusContents_count_zero _ _ _ _ _ isContent_not_init]
      simp [IsInitEvt]
    · rw [installCore_cancel env t tmd hri hb]
      dsimp only
      simp only [countEvents_append, countEvents_cons, countEvents_nil,
        nusContents_count_zero _ _ _ _ _ isContent_not_init]
      simp [IsInitEvt]

theorem installStep_one_level_counts (env : NusEnv) (r : UpdateResult) (u2 : List Nat)
    (t : TitleInfo) (u : List Nat) :
    CountEvents IsTicketEvt (InstallStep env (some fun _ _ => (r, u2, [])) t u).2.2 ≤ 1
      ∧ CountEvents IsInitEvt (InstallStep env (some fun _ _ => (r, u2, [])) t u).2.2 ≤ 1 := by
  by_cases h1 : t.id = BOOT2
  · rw [installStep_boot2 env _ t u h1]
    exact ⟨by simp [countEvents_nil], by simp [countEvents_nil]⟩
  by_cases h2 : ShouldInstallTitle env t = false
  · rw [installStep_noInstall env _ t u h1 h2]
    exact ⟨by simp [countEvents_nil], by simp [countEvents_nil]⟩
  replace h2 : ShouldInstallTitle env t = true := by simpa using h2
  by_cases h3 : u.contains t.id
  · rw [installStep_inUpdated env _ t u h1 h2 h3]
    exact ⟨by simp [countEvents_nil], by simp [countEvents_nil]⟩
  replace h3 : u.contains t.id = false := by simpa using h3
  by_cases h4 : env.downloadTicket t
  swap
  · replace h4 : env.downloadTicket t = false := by simpa using h4
    rw [installStep_ticketDownload_fail env _ t u h1 h2 h3 h4]
    exact ⟨by simp [countEvents_nil], by simp [countEvents_nil]⟩
  by_cases h5 : env.importTicketRet t < 0
  · rw [installStep_ticket_fail env _ t u h1 h2 h3 h4 h5]
    exact ⟨by simp [CountEvents, IsTicketEvt], by simp [CountEvents, IsInitEvt]⟩
  by_cases h6 : (env.downloadTMD t).valid
  swap
  · replace h6 : (env.downloadTMD t).valid = false := by simpa using h6
    rw [installStep_tmd_fail env _ t u h1 h2 h3 h4 h5 h6]
    exact ⟨by simp [CountEvents, IsTicketEvt], by simp [CountEvents, IsInitEvt]⟩
  have hr : ReachesPrereqCheck env t u := ⟨h1, h2, h3, h4, h5, h6⟩
  by_cases hp : NeedsPrereq env t
  · by_cases hsub : r = UpdateResult.Succeeded
    · rw [installStep_prereq_ok env _ t u hr hp (by simpa using hsub)]
      dsimp only
      simp only [countEvents_append, countEvents_cons, countEvents_nil,
        installCore_ticket_zero, installCore_init_one]
      exact ⟨by simp [IsTicketEvt], by simp [IsInitEvt]⟩
    · rw [installStep_prereq_fail env _ t u hr hp (by simpa using hsub)]
      dsimp only
      simp only [countEvents_append, countEvents_cons, countEvents_nil]
      exact ⟨by simp [IsTicketEvt], by simp [IsInitEvt]⟩
  · rw [installStep_noPrereq env _ t u hr hp]
    dsimp only
    simp only [countEvents_append, countEvents_cons, countEvents_nil,
      installCore_ticket_zero, installCore_init_one]
    exact ⟨by simp [IsTicketEvt], by simp [IsInitEvt]⟩

/-- C2: When ticket import or title-init fails due to signature
verification with the signature-check policy enabled and the user
confirming the downgrade, InstallWAD retries those two steps at most once
with checks disabled; on every return path the policy flag ends at its
entry value; and no other operation retries.  Stated as: under the
collaborator assumption that disabled-checks calls cannot fail signature
verification, (1) InstallWAD's behaviour is fixed from retry budget 2
onwards (at most one retry) and the final flag equals the entry flag on
every path; (2) unconditionally at budget 2 at most two ticket and two
title-init calls occur, and at most one when the policy is disabled or the
user declines; (3) a single planner level (prerequisite sub-install
excluded) performs at most one ticket import and one title-init — the NUS
path has no retry, and it never touches the policy flag (InstallTitleFromNUS
does not read or write it). -/
theorem spec_C2_signature_retry_bounded :
    (∀ env : WadEnv, NoDisabledCheckFailure env →
       (∀ fuel, 2 ≤ fuel → InstallWAD env fuel = InstallWAD env 2)
       ∧ (∀ fuel, 2 ≤ fuel → (InstallWAD env fuel).2.1 = env.checksEnabled))
  ∧ (∀ env : WadEnv,
       CountEvents IsTicketEvt (InstallWAD env 2).2.2 ≤ 2
       ∧ CountEvents IsInitEvt (InstallWAD env 2).2.2 ≤ 2
       ∧ ((env.checksEnabled = false ∨ env.askYesNo = false) →
           CountEvents IsTicketEvt (InstallWAD env 2).2.2 ≤ 1))
  ∧ (∀ (env : NusEnv) (r : UpdateResult) (u2 : List Nat) (t : TitleInfo) (u : List Nat),
       CountEvents IsTicketEvt (InstallStep env (some fun _ _ => (r, u2, [])) t u).2.2 ≤ 1
       ∧ CountEvents IsInitEvt (InstallStep env (some fun _ _ => (r, u2, [])) t u).2.2 ≤ 1) := by
  refine ⟨?_, ?_, ?_⟩
  · intro env h
    refine ⟨fun fuel hf => installWAD_stable env h fuel hf, fun fuel hf => ?_⟩
    rw [installWAD_stable env h fuel hf]
    exact installWAD_flag_restored env h
  · intro env
    by_cases hv : env.wad.valid = true
    · have h2 := installWAD_loop_counts env 2 IsTicketEvt isContent_not_ticket
        (fun _ _ => rfl) (fun _ _ => rfl) hv
      have h3 := installWAD_loop_counts env 2 IsInitEvt isContent_not_init
        (fun _ _ => rfl) (fun _ _ => rfl) hv
      have h4 := wadLoop_retry_counts env 2 env.checksEnabled
      refine ⟨by omega, by omega, fun hcb => ?_⟩
      have h5 := wadLoop_no_retry env hcb 1 env.checksEnabled
      rw [h2]
      exact h5
    · have hv2 : env.wad.valid = false := by simpa using hv
      rw [installWAD_invalid env 2 hv2]
      exact ⟨by simp [countEvents_nil], by simp [countEvents_nil],
        fun _ => by simp [countEvents_nil]⟩
  · intro env r u2 t u
    exact installStep_one_level_counts env r u2 t u

/-- Witness for C2: the concrete retry environment satisfies the
collaborator assumption, and the conclusions hold there. -/
theorem spec_C2_witness :
    NoDisabledCheckFailure sampleWadEnvRetry
    ∧ InstallWAD sampleWadEnvRetry 5 = InstallWAD sampleWadEnvRetry 2
    ∧ (InstallWAD sampleWadEnvRetry 5).2.1 = sampleWadEnvRetry.checksEnabled
    ∧ CountEvents IsTicketEvt (InstallWAD sampleWadEnvRetry 2).2.2 ≤ 2 := by
  have h : NoDisabledCheckFailure sampleWadEnvRetry := by decide
  refine ⟨h, ?_, ?_, ?_⟩
  · exact (spec_C2_signature_retry_bounded.1 sampleWadEnvRetry h).1 5 (by norm_num)
  · exact (spec_C2_signature_retry_bounded.1 sampleWadEnvRetry h).2 5 (by norm_num)
  · exact (spec_C2_signature_retry_bounded.2.1 sampleWadEnvRetry).1


/-! ### Claim C3 -/

/-- C3: ShouldInstallTitle returns false iff a valid installed metadata
record exists whose version is at least the requested one and whose
stored-content count equals the declared content count; it returns true
whenever the installed version is lower, and — under the metadata
invariant that the declared count equals the content-table length —
whenever some declared content is missing from secure storage. -/
theorem spec_C3_shouldInstallTitle : ∀ (env : NusEnv) (t : TitleInfo),
    (ShouldInstallTitle env t = false ↔
       ((env.installedTMD t.id).valid = true
        ∧ t.version ≤ (env.installedTMD t.id).titleVersion
        ∧ (GetStoredContentsFromTMD env (env.installedTMD t.id)).length
            = (env.installedTMD t.id).numContents))
  ∧ ((env.installedTMD t.id).titleVersion < t.version → ShouldInstallTitle env t = true)
  ∧ ((env.installedTMD t.id).numContents = (env.installedTMD t.id).contents.length →
      (∃ c ∈ (env.installedTMD t.id).contents,
         env.contentStored (env.installedTMD t.id).titleId c.id = false) →
      ShouldInstallTitle env t = true) := by
  intro env t
  refine ⟨?_, ?_, ?_⟩
  · simp [ShouldInstallTitle, and_assoc]
  · intro hv
    have hle : ¬ t.version ≤ (env.installedTMD t.id).titleVersion := by omega
    simp [ShouldInstallTitle, hle]
  · intro hnum hex
    have hne : ¬ (GetStoredContentsFromTMD env (env.installedTMD t.id)).length
        = (env.installedTMD t.id).numContents := by
      intro heq
      rw [hnum] at heq
      unfold GetStoredContentsFromTMD at heq
      have hs : List.Sublist
          ((env.installedTMD t.id).contents.filter
            (fun c => env.contentStored (env.installedTMD t.id).titleId c.id))
          (env.installedTMD t.id).contents := List.filter_sublist _
      have hfix := List.Sublist.eq_of_length hs heq
      obtain ⟨c, hc, hst⟩ := hex
      have hc2 : c ∈ (env.installedTMD t.id).contents.filter
          (fun x => env.contentStored (env.installedTMD t.id).titleId x.id) := by
        rw [hfix]; exact hc
      have hmem := List.of_mem_filter hc2
      simp only [hst] at hmem
      cases hmem
    simp [ShouldInstallTitle, hne]

/-- Witness for C3: a valid installed record at higher version whose single
declared content is missing forces a reinstall. -/
theorem spec_C3_witness :
    (sampleNusEnvPartial.installedTMD 7).numContents
        = (sampleNusEnvPartial.installedTMD 7).contents.length
    ∧ (∃ c ∈ (sampleNusEnvPartial.installedTMD 7).contents,
        sampleNusEnvPartial.contentStored (sampleNusEnvPartial.installedTMD 7).titleId c.id
          = false)
    ∧ ShouldInstallTitle sampleNusEnvPartial ⟨7, 1⟩ = true
    ∧ (sampleNusEnv.installedTMD 7).titleVersion < (1 : Nat)
    ∧ ShouldInstallTitle sampleNusEnv ⟨7, 1⟩ = true := by
  refine ⟨by decide, by decide, ?_, by decide, ?_⟩
  · exact (spec_C3_shouldInstallTitle sampleNusEnvPartial ⟨7, 1⟩).2.2 (by decide) (by decide)
  · exact (spec_C3_shouldInstallTitle sampleNusEnv ⟨7, 1⟩).2.1 (by decide)


/-! ### Claim C4 -/

theorem installCore_head (env : NusEnv) (t : TitleInfo) (tmd : TMD) :
    ∃ tl, (InstallCore env t tmd).2
      = .importTitleInit t.id (env.importTitleInitRet t) :: tl := by
  by_cases hri : env.importTitleInitRet t < 0
  · exact ⟨[], by rw [installCore_init_fail env t tmd hri]⟩
  · by_cases hb : (NusContents env t (GetStoredContentsFromTMD env tmd) tmd.contents).1
        = .Succeeded
    · refine ⟨(NusContents env t (GetStoredContentsFromTMD env tmd) tmd.contents).2
        ++ [.importTitleDone t.id (env.importTitleDoneRet t.id)], ?_⟩
      rw [installCore_commit env t tmd hri hb]
      dsimp only
      rw [List.cons_append]
    · refine ⟨(NusContents env t (GetStoredContentsFromTMD env tmd) tmd.contents).2
        ++ [.importTitleCancel t.id (env.importTitleCancelRet t.id)], ?_⟩
      rw [installCore_cancel env t tmd hri hb]
      dsimp only
      rw [List.cons_append]

theorem installTitleFromNUS_succ (env : NusEnv) (fuel : Nat) (t : TitleInfo) (u : List Nat) :
    InstallTitleFromNUS env (fuel + 1) t u
      = InstallStep env (some (fun a b => InstallTitleFromNUS env fuel a b)) t u := rfl

/-- C4 (amended): the required-runtime recursion fires only when the
declared runtime id is nonzero AND of system-title type AND not installed
(the original claim omits the system-title-type condition).  Then the
planner first runs the full install for title-info {runtime id, 0}; on its
failure that result is returned immediately and the dependent title's
own import is never initialised (no InstallCore events at all); on success
the dependent title's transaction runs, with every prerequisite event
preceding the dependent title's title-init call. -/
theorem spec_C4_prerequisite_amended :
    ∀ (env : NusEnv) (fuel : Nat) (title : TitleInfo) (updated : List Nat),
    ReachesPrereqCheck env title updated →
    NeedsPrereq env title →
    (((InstallTitleFromNUS env fuel ⟨(env.downloadTMD title).iosId, 0⟩ updated).1 ≠ .Succeeded →
       InstallTitleFromNUS env (fuel + 1) title updated
         = ((InstallTitleFromNUS env fuel ⟨(env.downloadTMD title).iosId, 0⟩ updated).1,
            (InstallTitleFromNUS env fuel ⟨(env.downloadTMD title).iosId, 0⟩ updated).2.1,
            .importTicket title.id (env.importTicketRet title)
              :: (InstallTitleFromNUS env fuel ⟨(env.downloadTMD title).iosId, 0⟩ updated).2.2))
     ∧ ((InstallTitleFromNUS env fuel ⟨(env.downloadTMD title).iosId, 0⟩ updated).1
          = .Succeeded →
       InstallTitleFromNUS env (fuel + 1) title updated
         = (if (InstallCore env title (env.downloadTMD title)).1 = .Succeeded then .Succeeded
              else (InstallCore env title (env.downloadTMD title)).1,
            if (InstallCore env title (env.downloadTMD title)).1 = .Succeeded
              then title.id
                :: (InstallTitleFromNUS env fuel ⟨(env.downloadTMD title).iosId, 0⟩ updated).2.1
              else (InstallTitleFromNUS env fuel ⟨(env.downloadTMD title).iosId, 0⟩ updated).2.1,
            .importTicket title.id (env.importTicketRet title)
              :: (InstallTitleFromNUS env fuel ⟨(env.downloadTMD title).iosId, 0⟩ updated).2.2
              ++ (InstallCore env title (env.downloadTMD title)).2))
     ∧ (∃ tl, (InstallCore env title (env.downloadTMD title)).2
          = .importTitleInit title.id (env.importTitleInitRet title) :: tl)) := by
  intro env fuel title updated hr hp
  refine ⟨?_, ?_, installCore_head env title (env.downloadTMD title)⟩
  · intro hsub
    rw [installTitleFromNUS_succ env fuel title updated]
    exact installStep_prereq_fail env _ title updated hr hp hsub
  · intro hsub
    rw [installTitleFromNUS_succ env fuel title updated]
    exact installStep_prereq_ok env _ title updated hr hp hsub

/-- Counterexample to C4 as stated: the downloaded metadata declares the
nonzero, uninstalled runtime id 5, yet because 5 is not of system-title
type the planner does not install it first — the run succeeds and its
trace contains no event for title 5 at all. -/
theorem spec_C4_counterexample :
    (sampleNusEnvNonSystem.downloadTMD ⟨9, 1⟩).iosId = 5
    ∧ (5 : Nat) ≠ 0
    ∧ (sampleNusEnvNonSystem.installedTMD 5).valid = false
    ∧ (InstallTitleFromNUS sampleNusEnvNonSystem 9 ⟨9, 1⟩ []).1 = .Succeeded
    ∧ (InstallTitleFromNUS sampleNusEnvNonSystem 9 ⟨9, 1⟩ []).2.2.all
        (fun e => eventTitle e != some 5) = true := by
  decide

/-- Witness for C4 (amended): with system-type runtime 2 required by title
9, the planner installs 2 first and then 9; the updated set ends as
[9, 2]. -/
theorem spec_C4_witness :
    ReachesPrereqCheck sampleNusEnvPrereq ⟨9, 1⟩ []
    ∧ NeedsPrereq sampleNusEnvPrereq ⟨9, 1⟩
    ∧ (InstallTitleFromNUS sampleNusEnvPrereq 2 ⟨9, 1⟩ []).1 = .Succeeded
    ∧ (InstallTitleFromNUS sampleNusEnvPrereq 2 ⟨9, 1⟩ []).2.1 = [9, 2] := by
  have h := (spec_C4_prerequisite_amended sampleNusEnvPrereq 1 ⟨9, 1⟩ []
    (by decide) (by decide)).2.1 (by decide)
  refine ⟨by decide, by decide, ?_, ?_⟩
  · rw [show (2 : Nat) = 1 + 1 from rfl, h]
    decide
  · rw [show (2 : Nat) = 1 + 1 from rfl, h]
    decide


/-! ### Claim C5 -/

theorem beginIds_append (a b : List ESEvent) :
    BeginIds (a ++ b) = BeginIds a ++ BeginIds b := by
  induction a with
  | nil => rfl
  | cons e rest ih => cases e <;> simp [BeginIds, ih]

theorem nusContents_beginIds_prefix (env : NusEnv) (t : TitleInfo) (stored : List Content) :
    ∀ l, ∃ k, BeginIds (NusContents env t stored l).2
      = ((l.filter fun c => !(stored.any fun sc => sc.id == c.id)).map Content.id).take k := by
  intro l
  induction l with
  | nil => exact ⟨0, rfl⟩
  | cons c rest ih =>
    by_cases h1 : stored.any (fun sc => sc.id == c.id)
    · rw [nusContents_skip env t stored c rest h1]
      obtain ⟨k, hk⟩ := ih
      refine ⟨k, ?_⟩
      rw [hk]
      simp [List.filter_cons, h1]
    · replace h1 : stored.any (fun sc => sc.id == c.id) = false := by simpa using h1
      by_cases h2 : env.importContentBeginRet t.id c.id < 0
      · rw [nusContents_begin_fail env t stored c rest h1 h2]
        exact ⟨1, by simp [BeginIds, List.filter_cons, h1]⟩
      · by_cases h3 : env.downloadContent t c.id
        · by_cases h4 : env.importContentDataRet c.id < 0
          · rw [nusContents_data_fail env t stored c rest h1 h2 h3 h4]
            exact ⟨1, by simp [BeginIds, List.filter_cons, h1]⟩
          · by_cases h5 : env.importContentEndRet c.id < 0
            · rw [nusContents_end_fail env t stored c rest h1 h2 h3 h4 h5]
              exact ⟨1, by simp [BeginIds, List.filter_cons, h1]⟩
            · rw [nusContents_step env t stored c rest h1 h2 h3 h4 h5]
              obtain ⟨k, hk⟩ := ih
              refine ⟨k + 1, ?_⟩
              dsimp only
              simp [List.filter_cons, h1, BeginIds, hk]
        · replace h3 : env.downloadContent t c.id = false := by simpa using h3
          rw [nusContents_download_fail env t stored c rest h1 h2 h3]
          exact ⟨1, by simp [BeginIds, List.filter_cons, h1]⟩

theorem nusContents_beginIds_success (env : NusEnv) (t : TitleInfo) (stored : List Content) :
    ∀ l, (NusContents env t stored l).1 = .Succeeded →
      BeginIds (NusContents env t stored l).2
        = (l.filter fun c => !(stored.any fun sc => sc.id == c.id)).map Content.id := by
  intro l
  induction l with
  | nil => intro _; rfl
  | cons c rest ih =>
    intro hres
    by_cases h1 : stored.any (fun sc => sc.id == c.id)
    · rw [nusContents_skip env t stored c rest h1] at hres ⊢
      rw [ih hres]
      simp [List.filter_cons, h1]
    · replace h1 : stored.any (fun sc => sc.id == c.id) = false := by simpa using h1
      by_cases h2 : env.importContentBeginRet t.id c.id < 0
      · rw [nusContents_begin_fail env t stored c rest h1 h2] at hres
        cases hres
      · by_cases h3 : env.downloadContent t c.id
        · by_cases h4 : env.importContentDataRet c.id < 0
          · rw [nusContents_data_fail env t stored c rest h1 h2 h3 h4] at hres
            cases hres
          · by_cases h5 : env.importContentEndRet c.id < 0
            · rw [nusContents_end_fail env t stored c rest h1 h2 h3 h4 h5] at hres
              cases hres
            · rw [nusContents_step env t stored c rest h1 h2 h3 h4 h5] at hres ⊢
              dsimp only at hres ⊢
              simp [List.filter_cons, h1, BeginIds, ih hres]
        · replace h3 : env.downloadContent t c.id = false := by simpa using h3
          rw [nusContents_download_fail env t stored c rest h1 h2 h3] at hres
          cases hres

theorem wadContents_beginIds_prefix (env : WadEnv) :
    ∀ l, ∃ k, BeginIds (WadContents env l).2 = (l.map Content.id).take k := by
  intro l
  induction l with
  | nil => exact ⟨0, rfl⟩
  | cons c rest ih =>
    by_cases h2 : env.importContentBeginRet env.wad.tmd.titleId c.id < 0
    · rw [wadContents_begin_fail env c rest h2]
      exact ⟨1, by simp [BeginIds]⟩
    · by_cases h4 : env.importContentDataRet c.id < 0
      · rw [wadContents_data_fail env c rest h2 h4]
        exact ⟨1, by simp [BeginIds]⟩
      · by_cases h5 : env.importContentEndRet c.id < 0
        · rw [wadContents_end_fail env c rest h2 h4 h5]
          exact ⟨1, by simp [BeginIds]⟩
        · rw [wadContents_step env c rest h2 h4 h5]
          obtain ⟨k, hk⟩ := ih
          refine ⟨k + 1, ?_⟩
          dsimp only
          simp [BeginIds, hk]

theorem wadContents_beginIds_success (env : WadEnv) :
    ∀ l, (WadContents env l).1 = true →
      BeginIds (WadContents env l).2 = l.map Content.id := by
  intro l
  induction l with
  | nil => intro _; rfl
  | cons c rest ih =>
    intro hres
    by_cases h2 : env.importContentBeginRet env.wad.tmd.titleId c.id < 0
    · rw [wadContents_begin_fail env c rest h2] at hres
      cases hres
    · by_cases h4 : env.importContentDataRet c.id < 0
      · rw [wadContents_data_fail env c rest h2 h4] at hres
        cases hres
      · by_cases h5 : env.importContentEndRet c.id < 0
        · rw [wadContents_end_fail env c rest h2 h4 h5] at hres
          cases hres
        · rw [wadContents_step env c rest h2 h4 h5] at hres ⊢
          dsimp only at hres ⊢
          simp [BeginIds, ih hres]

/-- C5 (amended): in the update planner's content phase the entries are
processed in metadata list order, entries already stored for the title are
skipped without begin/data/end, the others run begin, download/stream,
data, end, and the first failure aborts the remaining entries immediately
— the begin-content calls are always an order-preserving prefix of the
non-skipped entry ids, and exactly all of them on success.  The direct
package installer follows the same order and abort behaviour but imports
every entry unconditionally: it never consults secure storage and does not
skip already-present entries (this is where the original claim fails). -/
theorem spec_C5_content_phase_amended :
    (∀ (env : NusEnv) (t : TitleInfo) (stored l : List Content),
       ∃ k, BeginIds (NusContents env t stored l).2
         = ((l.filter fun c => !(stored.any fun sc => sc.id == c.id)).map Content.id).take k)
  ∧ (∀ (env : NusEnv) (t : TitleInfo) (stored l : List Content),
       (NusContents env t stored l).1 = .Succeeded →
       BeginIds (NusContents env t stored l).2
         = (l.filter fun c => !(stored.any fun sc => sc.id == c.id)).map Content.id)
  ∧ (∀ (env : NusEnv) (t : TitleInfo) (stored : List Content) (c : Content)
       (rest : List Content), stored.any (fun sc => sc.id == c.id) = true →
       NusContents env t stored (c :: rest) = NusContents env t stored rest)
  ∧ (∀ (env : NusEnv) (t : TitleInfo) (stored : List Content) (c : Content)
       (rest : List Content), stored.any (fun sc => sc.id == c.id) = false →
       env.importContentBeginRet t.id c.id < 0 →
       NusContents env t stored (c :: rest)
         = (.ImportFailed,
            [.importContentBegin t.id c.id (env.importContentBeginRet t.id c.id)]))
  ∧ (∀ (env : NusEnv) (t : TitleInfo) (stored : List Content) (c : Content)
       (rest : List Content), stored.any (fun sc => sc.id == c.id) = false →
       ¬ env.importContentBeginRet t.id c.id < 0 →
       env.downloadContent t c.id = true →
       ¬ env.importContentDataRet c.id < 0 →
       ¬ env.importContentEndRet c.id < 0 →
       NusContents env t stored (c :: rest)
         = ((NusContents env t stored rest).1,
            .importContentBegin t.id c.id (env.importContentBeginRet t.id c.id)
              :: .importContentData c.id (env.importContentDataRet c.id)
              :: .importContentEnd c.id (env.importContentEndRet c.id)
              :: (NusContents env t stored rest).2))
  ∧ (∀ (env : WadEnv) (l : List Content),
       ∃ k, BeginIds (WadContents env l).2 = (l.map Content.id).take k)
  ∧ (∀ (env : WadEnv) (l : List Content),
       (WadContents env l).1 = true → BeginIds (WadContents env l).2 = l.map Content.id)
  ∧ (∀ (env : WadEnv) (c : Content) (rest : List Content),
       env.importContentBeginRet env.wad.tmd.titleId c.id < 0 →
       WadContents env (c :: rest)
         = (false, [.importContentBegin env.wad.tmd.titleId c.id
              (env.importContentBeginRet env.wad.tmd.titleId c.id)])) := by
  exact ⟨fun env t stored l => nusContents_beginIds_prefix env t stored l,
         fun env t stored l => nusContents_beginIds_success env t stored l,
         fun env t stored c rest => nusContents_skip env t stored c rest,
         fun env t stored c rest => nusContents_begin_fail env t stored c rest,
         fun env t stored c rest => nusContents_step env t stored c rest,
         fun env l => wadContents_beginIds_prefix env l,
         fun env l => wadContents_beginIds_success env l,
         fun env c rest => wadContents_begin_fail env c rest⟩

/-- Counterexample to C5 as stated: in a direct WAD install whose single
content entry is already present in secure storage, the entry is not
skipped — ImportContentBegin is still invoked for it. -/
theorem spec_C5_counterexample :
    sampleWadEnvStored.contentStored sampleWadEnvStored.wad.tmd.titleId 11 = true
    ∧ (InstallWAD sampleWadEnvStored 2).2.2.any
        (fun e => e == .importContentBegin 7 11 0) = true := by
  decide

/-- Witness for C5 (amended): a concrete successful run imports exactly the
one non-skipped entry, and a stored entry is skipped with no events. -/
theorem spec_C5_witness :
    (NusContents sampleNusEnv ⟨7, 1⟩ [] [⟨11, 0⟩]).1 = .Succeeded
    ∧ BeginIds (NusContents sampleNusEnv ⟨7, 1⟩ [] [⟨11, 0⟩]).2 = [11]
    ∧ NusContents sampleNusEnv ⟨7, 1⟩ [⟨11, 0⟩] [⟨11, 0⟩]
        = NusContents sampleNusEnv ⟨7, 1⟩ [⟨11, 0⟩] [] := by
  refine ⟨by decide, ?_, ?_⟩
  · rw [spec_C5_content_phase_amended.2.1 sampleNusEnv ⟨7, 1⟩ [] [⟨11, 0⟩] (by decide)]
    decide
  · exact spec_C5_content_phase_amended.2.2.1 sampleNusEnv ⟨7, 1⟩ [⟨11, 0⟩] ⟨11, 0⟩ []
      (by decide)


/-! ### Claim C6 -/

theorem processTitles_cancel (env : NusEnv) (cb : Nat → Nat → Nat → Bool) (fuel total : Nat)
    (t : TitleInfo) (rest : List TitleInfo) (processed : Nat) (updated : List Nat)
    (h : cb processed total t.id = false) :
    ProcessTitles env cb fuel total (t :: rest) processed updated
      = (some .Cancelled, updated, [], [(processed, total, t.id, false)]) := by
  simp [ProcessTitles, h]

theorem processTitles_fail (env : NusEnv) (cb : Nat → Nat → Nat → Bool) (fuel total : Nat)
    (t : TitleInfo) (rest : List TitleInfo) (processed : Nat) (updated : List Nat)
    (hcb : cb processed total t.id = true)
    (hres : (InstallTitleFromNUS env fuel t updated).1 ≠ .Succeeded) :
    ProcessTitles env cb fuel total (t :: rest) processed updated
      = (some (InstallTitleFromNUS env fuel t updated).1,
         (InstallTitleFromNUS env fuel t updated).2.1,
         (InstallTitleFromNUS env fuel t updated).2.2,
         [(processed, total, t.id, true)]) := by
  simp [ProcessTitles, hcb, hres]

theorem processTitles_success_step (env : NusEnv) (cb : Nat → Nat → Nat → Bool)
    (fuel total : Nat) (t : TitleInfo) (rest : List TitleInfo) (processed : Nat)
    (updated : List Nat)
    (hcb : cb processed total t.id = true)
    (hres : (InstallTitleFromNUS env fuel t updated).1 = .Succeeded) :
    ProcessTitles env cb fuel total (t :: rest) processed updated
      = ((ProcessTitles env cb fuel total rest (processed + 1)
            (InstallTitleFromNUS env fuel t updated).2.1).1,
         (ProcessTitles env cb fuel total rest (processed + 1)
            (InstallTitleFromNUS env fuel t updated).2.1).2.1,
         (InstallTitleFromNUS env fuel t updated).2.2
           ++ (ProcessTitles env cb fuel total rest (processed + 1)
                (InstallTitleFromNUS env fuel t updated).2.1).2.2.1,
         (processed, total, t.id, true)
           :: (processed + 1, total, t.id, cb (processed + 1) total t.id)
           :: (ProcessTitles env cb fuel total rest (processed + 1)
                (InstallTitleFromNUS env fuel t updated).2.1).2.2.2) := by
  simp [ProcessTitles, hcb, hres]

theorem processTitles_cb_congr (env : NusEnv) (fuel total : Nat) :
    ∀ (titles : List TitleInfo) (cb cb' : Nat → Nat → Nat → Bool) (processed : Nat)
      (updated : List Nat),
      (∀ j (h : j < titles.length),
        cb (processed + j) total ((titles.get ⟨j, h⟩).id)
          = cb' (processed + j) total ((titles.get ⟨j, h⟩).id)) →
      ((ProcessTitles env cb fuel total titles processed updated).1
         = (ProcessTitles env cb' fuel total titles processed updated).1
       ∧ (ProcessTitles env cb fuel total titles processed updated).2.1
         = (ProcessTitles env cb' fuel total titles processed updated).2.1
       ∧ (ProcessTitles env cb fuel total titles processed updated).2.2.1
         = (ProcessTitles env cb' fuel total titles processed updated).2.2.1) := by
  intro titles
  induction titles with
  | nil => intro cb cb' processed updated _; exact ⟨rfl, rfl, rfl⟩
  | cons t rest ih =>
    intro cb cb' processed updated h
    have h0 : cb processed total t.id = cb' processed total t.id := by
      simpa using h 0 (by simp)
    have hshift : ∀ j (hj : j < rest.length),
        cb (processed + 1 + j) total ((rest.get ⟨j, hj⟩).id)
          = cb' (processed + 1 + j) total ((rest.get ⟨j, hj⟩).id) := by
      intro j hj
      have hj' : j + 1 < (t :: rest).length := by simpa using Nat.succ_lt_succ hj
      have hx := h (j + 1) hj'
      have harith : processed + (j + 1) = processed + 1 + j := by omega
      rw [harith] at hx
      exact hx
    by_cases hcb : cb processed total t.id = true
    · have hcb' : cb' processed total t.id = true := by rw [← h0]; exact hcb
      by_cases hres : (InstallTitleFromNUS env fuel t updated).1 = .Succeeded
      · rw [processTitles_success_step env cb fuel total t rest processed updated hcb hres,
            processTitles_success_step env cb' fuel total t rest processed updated hcb' hres]
        have hrec := ih cb cb' (processed + 1) (InstallTitleFromNUS env fuel t updated).2.1
          hshift
        exact ⟨hrec.1, hrec.2.1, by dsimp only; rw [hrec.2.2]⟩
      · rw [processTitles_fail env cb fuel total t rest processed updated hcb hres,
            processTitles_fail env cb' fuel total t rest processed updated hcb' hres]
        exact ⟨rfl, rfl, rfl⟩
    · have hcbf : cb processed total t.id = false := by simpa using hcb
      have hcbf' : cb' processed total t.id = false := by rw [← h0]; exact hcbf
      rw [processTitles_cancel env cb fuel total t rest processed updated hcbf,
          processTitles_cancel env cb' fuel total t rest processed updated hcbf']
      exact ⟨rfl, rfl, rfl⟩

/-- C6: before each title the progress callback is invoked once; if it
returns false the loop returns Cancelled at once with the updated set
unchanged and no ES event — no transaction or install is started for that
title.  After a successfully processed title the callback is invoked again
(recorded in the callback trace with index processed+1) and its return
value is ignored: the run's result, updated set and ES trace depend only
on the callback's values at the pre-processing invocations, so
cancellation is possible only at title boundaries. -/
theorem spec_C6_cancellation_at_title_boundaries :
    (∀ (env : NusEnv) (cb : Nat → Nat → Nat → Bool) (fuel total : Nat) (t : TitleInfo)
       (rest : List TitleInfo) (processed : Nat) (updated : List Nat),
       cb processed total t.id = false →
       ProcessTitles env cb fuel total (t :: rest) processed updated
         = (some .Cancelled, updated, [], [(processed, total, t.id, false)]))
  ∧ (∀ (env : NusEnv) (cb : Nat → Nat → Nat → Bool) (fuel total : Nat) (t : TitleInfo)
       (rest : List TitleInfo) (processed : Nat) (updated : List Nat),
       cb processed total t.id = true →
       (InstallTitleFromNUS env fuel t updated).1 ≠ .Succeeded →
       ProcessTitles env cb fuel total (t :: rest) processed updated
         = (some (InstallTitleFromNUS env fuel t updated).1,
            (InstallTitleFromNUS env fuel t updated).2.1,
            (InstallTitleFromNUS env fuel t updated).2.2,
            [(processed, total, t.id, true)]))
  ∧ (∀ (env : NusEnv) (cb : Nat → Nat → Nat → Bool) (fuel total : Nat) (t : TitleInfo)
       (rest : List TitleInfo) (processed : Nat) (updated : List Nat),
       cb processed total t.id = true →
       (InstallTitleFromNUS env fuel t updated).1 = .Succeeded →
       ProcessTitles env cb fuel total (t :: rest) processed updated
         = ((ProcessTitles env cb fuel total rest (processed + 1)
               (InstallTitleFromNUS env fuel t updated).2.1).1,
            (ProcessTitles env cb fuel total rest (processed + 1)
               (InstallTitleFromNUS env fuel t updated).2.1).2.1,
            (InstallTitleFromNUS env fuel t updated).2.2
              ++ (ProcessTitles env cb fuel total rest (processed + 1)
                   (InstallTitleFromNUS env fuel t updated).2.1).2.2.1,
            (processed, total, t.id, true)
              :: (processed + 1, total, t.id, cb (processed + 1) total t.id)
              :: (ProcessTitles env cb fuel total rest (processed + 1)
                   (InstallTitleFromNUS env fuel t updated).2.1).2.2.2))
  ∧ (∀ (env : NusEnv) (fuel total : Nat) (titles : List TitleInfo)
       (cb cb' : Nat → Nat → Nat → Bool) (processed : Nat) (updated : List Nat),
       (∀ j (h : j < titles.length),
         cb (processed + j) total ((titles.get ⟨j, h⟩).id)
           = cb' (processed + j) total ((titles.get ⟨j, h⟩).id)) →
       ((ProcessTitles env cb fuel total titles processed updated).1
          = (ProcessTitles env cb' fuel total titles processed updated).1
        ∧ (ProcessTitles env cb fuel total titles processed updated).2.1
          = (ProcessTitles env cb' fuel total titles processed updated).2.1
        ∧ (ProcessTitles env cb fuel total titles processed updated).2.2.1
          = (ProcessTitles env cb' fuel total titles processed updated).2.2.1)) :=
  ⟨fun env cb fuel total t rest processed updated h =>
     processTitles_cancel env cb fuel total t rest processed updated h,
   fun env cb fuel total t rest processed updated hcb hres =>
     processTitles_fail env cb fuel total t rest processed updated hcb hres,
   fun env cb fuel total t rest processed updated hcb hres =>
     processTitles_success_step env cb fuel total t rest processed updated hcb hres,
   fun env fuel total titles cb cb' processed updated h =>
     processTitles_cb_congr env fuel total titles cb cb' processed updated h⟩

/-- Witness for C6: a declining callback cancels immediately with no ES
events, and flipping only the post-processing callback value leaves the
outcome unchanged. -/
theorem spec_C6_witness :
    ProcessTitles sampleNusEnv (fun _ _ _ => false) 1 1 [⟨7, 1⟩] 0 []
        = (some .Cancelled, [], [], [(0, 1, 7, false)])
    ∧ ((ProcessTitles sampleNusEnv (fun _ _ _ => true) 1 2 [⟨7, 1⟩, ⟨8, 1⟩] 0 []).1
         = (ProcessTitles sampleNusEnv (fun i _ x => !(i == 1 && x == 7)) 1 2
             [⟨7, 1⟩, ⟨8, 1⟩] 0 []).1
       ∧ (ProcessTitles sampleNusEnv (fun _ _ _ => true) 1 2 [⟨7, 1⟩, ⟨8, 1⟩] 0 []).2.1
         = (ProcessTitles sampleNusEnv (fun i _ x => !(i == 1 && x == 7)) 1 2
             [⟨7, 1⟩, ⟨8, 1⟩] 0 []).2.1
       ∧ (ProcessTitles sampleNusEnv (fun _ _ _ => true) 1 2 [⟨7, 1⟩, ⟨8, 1⟩] 0 []).2.2.1
         = (ProcessTitles sampleNusEnv (fun i _ x => !(i == 1 && x == 7)) 1 2
             [⟨7, 1⟩, ⟨8, 1⟩] 0 []).2.2.1) := by
  constructor
  · exact spec_C6_cancellation_at_title_boundaries.1 sampleNusEnv (fun _ _ _ => false)
      1 1 ⟨7, 1⟩ [] 0 [] rfl
  · refine spec_C6_cancellation_at_title_boundaries.2.2.2 sampleNusEnv 1 2 [⟨7, 1⟩, ⟨8, 1⟩]
      (fun _ _ _ => true) (fun i _ x => !(i == 1 && x == 7)) 0 [] ?_
    intro j hj
    simp only [List.length_cons, List.length_nil] at hj
    match j, hj with
    | 0, _ => rfl
    | 1, _ => rfl


/-! ### Claim C7 -/

/-- C7: the planner run returns ServerFailed exactly when the decoded
catalog gives an empty title list; otherwise, when the per-title loop runs
to completion (no early failure or cancellation), the result is
AlreadyUpToDate when the set of updated titles is empty and Succeeded when
it is not, and an early-returned result is propagated unchanged. -/
theorem spec_C7_run_results :
    ∀ (env : NusEnv) (cb : Nat → Nat → Nat → Bool) (fuel : Nat) (info : Response),
    (info.titles = [] → DoOnlineUpdate env cb fuel info = (.ServerFailed, []))
  ∧ (info.titles ≠ [] →
      (ProcessTitles env cb fuel info.titles.length info.titles 0 []).1 = none →
      DoOnlineUpdate env cb fuel info
        = (if (ProcessTitles env cb fuel info.titles.length info.titles 0 []).2.1 = []
             then .AlreadyUpToDate else .Succeeded,
           (ProcessTitles env cb fuel info.titles.length info.titles 0 []).2.1))
  ∧ (info.titles ≠ [] → ∀ r,
      (ProcessTitles env cb fuel info.titles.length info.titles 0 []).1 = some r →
      DoOnlineUpdate env cb fuel info
        = (r, (ProcessTitles env cb fuel info.titles.length info.titles 0 []).2.1)) := by
  intro env cb fuel info
  refine ⟨?_, ?_, ?_⟩
  · intro h
    simp [DoOnlineUpdate, h]
  · intro hne hnone
    simp [DoOnlineUpdate, hne, hnone]
  · intro hne r hsome
    simp [DoOnlineUpdate, hne, hsome]

/-- Witness for C7: empty catalog gives ServerFailed; an up-to-date single
title gives AlreadyUpToDate; a stale single title gives Succeeded. -/
theorem spec_C7_witness :
    DoOnlineUpdate sampleNusEnv (fun _ _ _ => true) 1 ⟨[], []⟩ = (.ServerFailed, [])
    ∧ DoOnlineUpdate sampleNusEnvUpToDate (fun _ _ _ => true) 1 ⟨[], [⟨7, 1⟩]⟩
        = (.AlreadyUpToDate, [])
    ∧ DoOnlineUpdate sampleNusEnv (fun _ _ _ => true) 1 ⟨[], [⟨7, 1⟩]⟩ = (.Succeeded, [7]) := by
  refine ⟨?_, ?_, ?_⟩
  · exact (spec_C7_run_results sampleNusEnv (fun _ _ _ => true) 1 ⟨[], []⟩).1 rfl
  · rw [(spec_C7_run_results sampleNusEnvUpToDate (fun _ _ _ => true) 1
      ⟨[], [⟨7, 1⟩]⟩).2.1 (by decide) (by decide)]
    decide
  · rw [(spec_C7_run_results sampleNusEnv (fun _ _ _ => true) 1
      ⟨[], [⟨7, 1⟩]⟩).2.1 (by decide) (by decide)]
    decide


/-! ### Claim C8 -/

/-- C8: the decoder returns the empty result when the buffer does not
parse, when the expected root node is absent, when a non-zero status code
is present, or when the (scheme-normalized) content base URL is empty;
otherwise it returns the URL with every occurrence of the encrypted
transport scheme prefix replaced by the non-encrypted one, together with
the {hex-parsed title id, 16-bit version} list in document order.  The
last conjunct is the defining property of the replacement on a leading
occurrence. -/
theorem spec_C8_parse_titles_response : ∀ x : TitlesXML,
    (x.parsedOk = false → ParseTitlesResponse x = ⟨[], []⟩)
  ∧ (x.rootPresent = false → ParseTitlesResponse x = ⟨[], []⟩)
  ∧ (x.errorCode ≠ 0 → ParseTitlesResponse x = ⟨[], []⟩)
  ∧ (ReplaceAllHttps x.contentPrefixURL = [] → ParseTitlesResponse x = ⟨[], []⟩)
  ∧ (x.parsedOk = true → x.rootPresent = true → x.errorCode = 0 →
      ReplaceAllHttps x.contentPrefixURL ≠ [] →
      ParseTitlesResponse x
        = ⟨ReplaceAllHttps x.contentPrefixURL,
           x.titleVersions.map (fun tv => ⟨hexParse tv.1, tv.2 % 65536⟩)⟩)
  ∧ (∀ s : List Char,
      ReplaceAllHttps ('h' :: 't' :: 't' :: 'p' :: 's' :: ':' :: '/' :: '/' :: s)
        = 'h' :: 't' :: 't' :: 'p' :: ':' :: '/' :: '/' :: ReplaceAllHttps s) := by
  intro x
  refine ⟨?_, ?_, ?_, ?_, ?_, fun s => rfl⟩
  · intro h
    simp [ParseTitlesResponse, h]
  · intro h
    unfold ParseTitlesResponse
    split
    · rfl
    · simp [h]
  · intro h
    unfold ParseTitlesResponse
    split
    · rfl
    split
    · rfl
    · simp [h]
  · intro h
    unfold ParseTitlesResponse
    split
    · rfl
    split
    · rfl
    split
    · rfl
    · simp [h]
  · intro h1 h2 h3 h4
    simp [ParseTitlesResponse, h1, h2, h3, h4]

/-- Witness for C8: the sample response decodes to the scheme-normalized
URL and the parsed title list. -/
theorem spec_C8_witness :
    ParseTitlesResponse sampleXML
      = ⟨['h', 't', 't', 'p', ':', '/', '/', 'a'], [⟨26, 2⟩]⟩
    ∧ ReplaceAllHttps
        ('x' :: 'h' :: 't' :: 't' :: 'p' :: 's' :: ':' :: '/' :: '/' :: 'h' :: 't'
          :: 't' :: 'p' :: 's' :: ':' :: '/' :: '/' :: [])
      = 'x' :: 'h' :: 't' :: 't' :: 'p' :: ':' :: '/' :: '/' :: 'h' :: 't' :: 't'
          :: 'p' :: ':' :: '/' :: '/' :: [] := by
  constructor
  · rw [(spec_C8_parse_titles_response sampleXML).2.2.2.2.1 rfl rfl rfl (by decide)]
    decide
  · decide


/-! ### Claim C9 -/

/-- C9: for any buffer whose length is at most the fixed header size, or
whose declared content count times the entry size plus the header size
reaches or exceeds the buffer length, the TMD download split yields the
invalid result; the single two-byte read it performs is never out of the
buffer's bounds (given the header-layout fact that the count offset plus
two fits in the header); and a successful split is an exact partition of
the input buffer, so no byte outside it is ever touched. -/
theorem spec_C9_downloadTMD_bounds :
    ∀ (headerSize entrySize countOff : Nat) (buf : List Nat),
    countOff + 2 ≤ headerSize →
    ((buf.length ≤ headerSize →
        DownloadTMD headerSize entrySize countOff (some buf) = .invalid)
  ∧ (∀ n, swap16At buf countOff = some n →
       buf.length ≤ headerSize + entrySize * n →
       DownloadTMD headerSize entrySize countOff (some buf) = .invalid)
  ∧ DownloadTMD headerSize entrySize countOff (some buf) ≠ .oobRead
  ∧ (∀ t c, DownloadTMD headerSize entrySize countOff (some buf) = .ok t c →
       t ++ c = buf)) := by
  intro hs es co buf hoff
  refine ⟨?_, ?_, ?_, ?_⟩
  · intro h
    simp [DownloadTMD, h]
  · intro n hn hle
    unfold DownloadTMD
    by_cases h1 : buf.length ≤ hs
    · simp [h1]
    · simp [h1, hn, hle]
  · unfold DownloadTMD
    dsimp only
    by_cases h1 : buf.length ≤ hs
    · simp [h1]
    · have hco : co < buf.length := by omega
      have hco1 : co + 1 < buf.length := by omega
      have h2 : swap16At buf co
          = some ((buf.get ⟨co, hco⟩) * 256 + buf.get ⟨co + 1, hco1⟩) := by
        unfold swap16At
        rw [List.get?_eq_get hco, List.get?_eq_get hco1]
    
      rw [if_neg h1, h2]
      dsimp only
      split
      · intro hx
        cases hx
      · intro hx
        cases hx
  · intro t c h
    unfold DownloadTMD at h
    dsimp only at h
    by_cases h1 : buf.length ≤ hs
    · simp [h1] at h
    · rw [if_neg h1] at h
      cases hsw : swap16At buf co with
      | none =>
        rw [hsw] at h
        cases h
      | some n =>
        rw [hsw] at h
        dsimp only at h
        by_cases h2 : buf.length ≤ hs + es * n
        · rw [if_pos h2] at h
          cases h
        · rw [if_neg h2] at h
          cases h
          exact List.take_append_drop _ _

/-- Witness for C9: an empty buffer is rejected; a sufficiently long
buffer is processed without any out-of-bounds read. -/
theorem spec_C9_witness :
    DownloadTMD 4 2 1 (some []) = .invalid
    ∧ DownloadTMD 4 2 1 (some [9, 0, 1, 9, 9, 9, 9]) ≠ .oobRead := by
  constructor
  · exact (spec_C9_downloadTMD_bounds 4 2 1 [] (by norm_num)).1 (by decide)
  · exact (spec_C9_downloadTMD_bounds 4 2 1 [9, 0, 1, 9, 9, 9, 9] (by norm_num)).2.2.1


/-! ### Claim C10 -/

theorem subset_applyTicketEvent (st : List Nat) (e : ESEvent) :
    st ⊆ applyTicketEvent st e := by
  cases e <;> simp only [applyTicketEvent] <;> try exact fun x hx => hx
  split
  · exact fun x hx => List.mem_cons_of_mem _ hx
  · exact fun x hx => hx

theorem ticketsAfter_mono (l : List ESEvent) : ∀ st, st ⊆ ticketsAfter st l := by
  induction l with
  | nil => intro st x hx; exact hx
  | cons e rest ih =>
    intro st
    exact List.Subset.trans (subset_applyTicketEvent st e) (ih (applyTicketEvent st e))

theorem mem_ticketsAfter_of_event (l : List ESEvent) :
    ∀ (st : List Nat) (x : Nat) (r : Int),
      ESEvent.importTicket x r ∈ l → 0 ≤ r → x ∈ ticketsAfter st l := by
  induction l with
  | nil => intro st x r h _; cases h
  | cons e rest ih =>
    intro st x r h hr
    rcases List.mem_cons.mp h with heq | hmem
    · subst heq
      show x ∈ ticketsAfter (applyTicketEvent st (.importTicket x r)) rest
      apply ticketsAfter_mono rest
      simp [applyTicketEvent, hr]
    · exact ih (applyTicketEvent st e) x r hmem hr

/-- C10: rollback on failure applies only to the title-import context.  In
the spec-modelled ticket store (a successful ImportTicket adds the ticket;
no other import call — in particular ImportTitleCancel — touches it), the
store only grows across any install run, and every ticket whose import
succeeded during the run is still present afterwards, on success and on
every failure path. -/
theorem spec_C10_ticket_survives_failure :
    (∀ (env : NusEnv) (fuel : Nat) (t : TitleInfo) (u : List Nat) (st : List Nat),
       st ⊆ ticketsAfter st (InstallTitleFromNUS env fuel t u).2.2
       ∧ (∀ x r, ESEvent.importTicket x r ∈ (InstallTitleFromNUS env fuel t u).2.2 →
           0 ≤ r → x ∈ ticketsAfter st (InstallTitleFromNUS env fuel t u).2.2))
  ∧ (∀ (env : WadEnv) (fuel : Nat) (st : List Nat),
       st ⊆ ticketsAfter st (InstallWAD env fuel).2.2
       ∧ (∀ x r, ESEvent.importTicket x r ∈ (InstallWAD env fuel).2.2 →
           0 ≤ r → x ∈ ticketsAfter st (InstallWAD env fuel).2.2)) :=
  ⟨fun env fuel t u st =>
     ⟨ticketsAfter_mono (InstallTitleFromNUS env fuel t u).2.2 st,
      fun x r hmem hr =>
        mem_ticketsAfter_of_event (InstallTitleFromNUS env fuel t u).2.2 st x r hmem hr⟩,
   fun env fuel st =>
     ⟨ticketsAfter_mono (InstallWAD env fuel).2.2 st,
      fun x r hmem hr =>
        mem_ticketsAfter_of_event (InstallWAD env fuel).2.2 st x r hmem hr⟩⟩

/-- Witness for C10: in a failing run (content download fails after the
ticket import succeeded) the imported ticket is still in the store. -/
theorem spec_C10_witness :
    (InstallTitleFromNUS
        { sampleNusEnv with downloadContent := fun _ _ => false } 1 ⟨7, 1⟩ []).1
      = .DownloadFailed
    ∧ ESEvent.importTicket 7 0
        ∈ (InstallTitleFromNUS
            { sampleNusEnv with downloadContent := fun _ _ => false } 1 ⟨7, 1⟩ []).2.2
    ∧ 7 ∈ ticketsAfter []
        (InstallTitleFromNUS
          { sampleNusEnv with downloadContent := fun _ _ => false } 1 ⟨7, 1⟩ []).2.2 := by
  refine ⟨by decide, by decide, ?_⟩
  exact (spec_C10_ticket_survives_failure.1
    { sampleNusEnv with downloadContent := fun _ _ => false } 1 ⟨7, 1⟩ [] []).2 7 0
    (by decide) (by norm_num)

end WiiUtils
